import Mathlib

/-!
# Dynamic cubemaps: frame scheduler, capture stage, kernel cache, prefilter loop

A shallow embedding of `src/Features/DynamicCubemaps.cpp`.

* Member variables of `DynamicCubemaps` become fields of `State`.
* A COM pointer is an `Option Handle`; `none` is `nullptr`.
* Calls on the D3D11 device context are recorded, oldest first, in `State.ctx`;
  calls of `Util::CompileShader`, `logger::debug`, `Release` and of the pipeline
  stages are recorded in logs of their own.
* What the code reads from outside the class (the compiler, the eye position,
  texture descriptions, the result of the global shader cache) is the `Env`.
* A `for` loop is a recursive function on its loop variables, with the loop
  condition as the test; the profiling zone `TracyD3D11Zone` is left out.
* Unsigned 32-bit values are natural numbers; the only arithmetic on them is
  `max`, division and `level + 1` with `level < 8`, none of which can wrap.
* `float` is IEEE-754 binary32 with round-to-nearest-even, restricted to finite
  values of the normal range (all values computed here are in that range).
-/

namespace DynamicCubemaps

/-! ## binary32 -/

/-- A finite binary32 value `(-1)^neg * m * 2^e`; a value produced by rounding has
`m = 0` or `2^23 ≤ m < 2^24`. -/
structure F32 where
  neg : Bool
  m : Nat
  e : Int
deriving DecidableEq, Repr

namespace F32

/-- The rational number a binary32 value stands for. -/
def toRat (x : F32) : ℚ := (if x.neg then -1 else 1) * (x.m : ℚ) * (2 : ℚ) ^ x.e

/-- Position of the leading bit: `ilog2Aux n n` is `⌊log₂ n⌋` for `0 < n`;
the first argument bounds the number of halvings. -/
def ilog2Aux : Nat → Nat → Nat
  | 0, _ => 0
  | fuel + 1, n => if n < 2 then 0 else ilog2Aux fuel (n / 2) + 1

/-- The number `⌊log₂ n⌋` for `0 < n`. -/
def ilog2 (n : Nat) : Nat := ilog2Aux n n

/-- Round-to-nearest, ties-to-even, of the magnitude `n / d` (with `0 < d`) to a 24-bit
significand: the result `(m, e)` stands for `m * 2^e`. -/
def roundMag (n d : Nat) : Nat × Int :=
  if n = 0 then (0, 0) else
    let a : Int := (ilog2 n : Int) - (ilog2 d : Int)
    -- exponent of the leading bit of n / d
    let b : Int := if d * 2 ^ a.toNat ≤ n * 2 ^ (-a).toNat then a else a - 1
    let k : Int := 23 - b
    let num : Nat := n * 2 ^ k.toNat
    let den : Nat := d * 2 ^ (-k).toNat
    let q : Nat := num / den
    let r : Nat := num % den
    let q1 : Nat :=
      if 2 * r < den then q
      else if den < 2 * r then q + 1
      else if q % 2 = 0 then q else q + 1
    if q1 = 2 ^ 24 then (2 ^ 23, b - 22) else (q1, b - 23)

/-- The binary32 nearest to `(-1)^neg * n / d`. -/
def round (neg : Bool) (n d : Nat) : F32 :=
  let r := roundMag n d
  { neg := neg && decide (r.1 ≠ 0), m := r.1, e := r.2 }

/-- The literal `0`. -/
def zero : F32 := { neg := false, m := 0, e := 0 }

/-- Conversion of an unsigned integer to `float`. -/
def ofNat (n : Nat) : F32 := round false n 1

/-- The product `x * y` in binary32. -/
def mul (x y : F32) : F32 :=
  let ex : Int := x.e + y.e
  round (xor x.neg y.neg) (x.m * y.m * 2 ^ ex.toNat) (2 ^ (-ex).toNat)

/-- The quotient `x / y` in binary32, for `y` not zero. -/
def div (x y : F32) : F32 :=
  let ex : Int := x.e - y.e
  round (xor x.neg y.neg) (x.m * 2 ^ ex.toNat) (y.m * 2 ^ (-ex).toNat)

/-- The signed significand. -/
def sm (x : F32) : Int := if x.neg then -(x.m : Int) else (x.m : Int)

/-- The comparison `x < y`. -/
def lt (x y : F32) : Bool :=
  let lo : Int := min x.e y.e
  decide (x.sm * 2 ^ (x.e - lo).toNat < y.sm * 2 ^ (y.e - lo).toNat)

/-- The function `std::max(a, b)`, which is `(a < b) ? b : a`. -/
def max (a b : F32) : F32 := if lt a b then b else a

/-- The conversion `(uint32_t)std::ceil(x)` for `x ≥ 0` (a negative `x` has no defined
conversion unless it is above `-1`, where the result is `0`). -/
def ceilToNat (x : F32) : Nat :=
  if x.neg then 0
  else if 0 ≤ x.e then x.m * 2 ^ x.e.toNat
  else (x.m + 2 ^ (-x.e).toNat - 1) / 2 ^ (-x.e).toNat

end F32

/-! ## Data model -/

/-- The constant `MIPLEVELS`. -/
def MIPLEVELS : Nat := 8

/-- Identity of a compiled `ID3D11ComputeShader`; a pointer to one is an `Option Handle`. -/
abbrev Handle := Nat

/-- Modelled from the spec: the enum `NextTask` is declared in `DynamicCubemaps.h`, which
is not among the sources. These are the six scheduler states of spec §4.6, under the
names of the six `case` labels of the `switch` in `UpdateCubemap`. -/
inductive NextTask where
  | kCapture
  | kInferrence
  | kIrradiance
  | kCapture2
  | kInferrence2
  | kIrradiance2
deriving DecidableEq, Repr

/-- The textures the three stages read and write (members of type `Texture2D*`). -/
inductive Tex where
  | envCaptureTexture
  | envCaptureRawTexture
  | envCapturePositionTexture
  | envCaptureReflectionsTexture
  | envCaptureRawReflectionsTexture
  | envCapturePositionReflectionsTexture
  | envTexture
  | envReflectionsTexture
  | envInferredTexture
deriving DecidableEq, Repr

/-- Shader resource views bound by the stages. -/
inductive SRV where
  /-- The view `depth.depthSRV` of the renderer. -/
  | depthSRV
  /-- The view `main.SRV` of the renderer. -/
  | mainSRV
  /-- The view `cubemap.SRV` of the renderer. -/
  | cubemapSRV
  /-- The member `defaultCubemap`. -/
  | defaultCubemap
  /-- The view `t->srv.get()`. -/
  | ofTex (t : Tex)
deriving DecidableEq, Repr

/-- Unordered access views bound by the stages. -/
inductive UAV where
  /-- The view `t->uav.get()`. -/
  | ofTex (t : Tex)
  /-- The view `uavArray[i]`. -/
  | uavArray (i : Nat)
  /-- The view `uavReflectionsArray[i]`. -/
  | uavReflectionsArray (i : Nat)
deriving DecidableEq, Repr

/-- The two constant buffers. -/
inductive CBuf where
  | updateCubemapCB
  | spmapCB
deriving DecidableEq, Repr

/-- The sampler states (only `computeSampler` exists). -/
inductive Sampler where
  | computeSampler
deriving DecidableEq, Repr

/-- The type `float3`. -/
structure float3 where
  x : F32
  y : F32
  z : F32
deriving DecidableEq, Repr

/-- A call on the device context or an update of a constant buffer, with its arguments. -/
inductive Cmd where
  | CSSetShaderResources (start : Nat) (views : List (Option SRV))
  | ClearUnorderedAccessViewFloat (uav : UAV) (color : List F32)
  | CSSetUnorderedAccessViews (start : Nat) (views : List (Option UAV))
  /-- The call `updateCubemapCB->Update(updateData)`. -/
  | UpdateCubemapCB (CameraPreviousPosAdjust : float3)
  /-- The call `spmapCB->Update(spmapConstants)`. -/
  | UpdateSpmapCB (roughness : F32)
  | CSSetConstantBuffers (start : Nat) (buffers : List (Option CBuf))
  | CSSetSamplers (start : Nat) (samplers : List (Option Sampler))
  | CSSetShader (shader : Option Handle)
  | Dispatch (x y z : Nat)
  | GenerateMips (srv : SRV)
  | CopySubresourceRegion (dst : Tex) (dstSubresource : Nat) (src : Tex) (srcSubresource : Nat)
deriving DecidableEq, Repr

/-- The arguments of one call of `Util::CompileShader`. -/
structure ShaderRequest where
  path : String
  defines : List (String × String)
  target : String
deriving DecidableEq, Repr

/-- The three pipeline stages. -/
inductive Stage where
  | UpdateCubemapCapture
  | Inferrence
  | Irradiance
deriving DecidableEq, Repr

/-- A call of the global `SIE::ShaderCache`. -/
inductive ShaderCacheClear where
  | file (path : String)
  | imageSpace
deriving DecidableEq, Repr

/-- What the code reads from outside the class during one call. -/
structure Env where
  /-- The result of `Util::CompileShader` on a request, given the number of earlier calls. -/
  CompileShader : Nat → ShaderRequest → Option Handle
  /-- The result of `Util::GetEyePosition(0)`. -/
  GetEyePosition : float3
  /-- The field `envCaptureTexture->desc.Width`. -/
  envCaptureWidth : Nat
  /-- The field `envCaptureTexture->desc.Height`. -/
  envCaptureHeight : Nat
  /-- The field `envTexture->desc.Width`. -/
  envWidth : Nat
  /-- The field `envTexture->desc.Height`. -/
  envHeight : Nat
  /-- The result of `shaderCache.Clear("Data//Shaders//ISReflectionsRayTracing.hlsl")`. -/
  shaderCacheClearFile : Bool

/-- The member variables the modelled functions read or write, and the logs of their
effects (each log oldest first). -/
structure State where
  recompileFlag : Bool
  activeReflections : Bool
  nextTask : NextTask
  /-- The array `resetCapture[2]`. -/
  resetCapture : Bool × Bool
  updateCubemapCS : Option Handle
  updateCubemapReflectionsCS : Option Handle
  inferCubemapCS : Option Handle
  inferCubemapReflectionsCS : Option Handle
  specularIrradianceCS : Option Handle
  /-- The function-local static `cameraPreviousPosAdjust[2]` of `UpdateCubemapCapture`. -/
  cameraPreviousPosAdjust : float3 × float3
  /-- Calls on the device context and constant-buffer updates. -/
  ctx : List Cmd
  /-- Calls of `Util::CompileShader`. -/
  compiled : List ShaderRequest
  /-- Messages of `logger::debug`. -/
  log : List String
  /-- Handles on which `Release()` was called. -/
  released : List Handle
  /-- Calls of the three stage functions, with the argument `a_reflections`. -/
  calls : List (Stage × Bool)
  /-- Calls of `SIE::ShaderCache::Clear`. -/
  shaderCacheClears : List ShaderCacheClear
deriving DecidableEq, Repr

/-- Read of a two-element array at index `0` or `1`. -/
def get2 {α : Type} (a : α × α) (i : Nat) : α := if i = 0 then a.1 else a.2

/-- Write of a two-element array at index `0` or `1`. -/
def set2 {α : Type} (a : α × α) (i : Nat) (v : α) : α × α := if i = 0 then (v, a.2) else (a.1, v)

/-- Issue one command on the device context. -/
def State.issue (s : State) (c : Cmd) : State := { s with ctx := s.ctx ++ [c] }

/-- The function `D3D11CalcSubresource(MipSlice, ArraySlice, MipLevels)` of the D3D11 headers. -/
def D3D11CalcSubresource (mipSlice arraySlice mipLevels : Nat) : Nat :=
  mipSlice + arraySlice * mipLevels

/-- The expression `(uint32_t)std::ceil(w / 8.0f)` for an unsigned `w`. -/
def ceilDiv8f (w : Nat) : Nat := F32.ceilToNat (F32.div (F32.ofNat w) (F32.ofNat 8))

/-! ## Compute program cache -/

/-- The function `DynamicCubemaps::ClearShaderCache`. -/
def ClearShaderCache (s : State) : State :=
  let s := match s.updateCubemapCS with
    | some h => { s with released := s.released ++ [h], updateCubemapCS := none }
    | none => s
  let s := match s.inferCubemapCS with
    | some h => { s with released := s.released ++ [h], inferCubemapCS := none }
    | none => s
  let s := match s.inferCubemapReflectionsCS with
    | some h => { s with released := s.released ++ [h], inferCubemapReflectionsCS := none }
    | none => s
  match s.specularIrradianceCS with
  | some h => { s with released := s.released ++ [h], specularIrradianceCS := none }
  | none => s

/-- The call `Util::CompileShader(path, defines, target)`, logged. -/
def compileShader (env : Env) (req : ShaderRequest) (s : State) : Option Handle × State :=
  (env.CompileShader s.compiled.length req, { s with compiled := s.compiled ++ [req] })

/-- The function `DynamicCubemaps::GetComputeShaderUpdate`. -/
def GetComputeShaderUpdate (env : Env) (s : State) : Option Handle × State :=
  match s.updateCubemapCS with
  | some h => (some h, s)
  | none =>
    let s := { s with log := s.log ++ ["Compiling UpdateCubemapCS"] }
    let r := compileShader env
      ⟨"Data\\Shaders\\DynamicCubemaps\\UpdateCubemapCS.hlsl", [], "cs_5_0"⟩ s
    (r.1, { r.2 with updateCubemapCS := r.1 })

/-- The function `DynamicCubemaps::GetComputeShaderUpdateReflections`. -/
def GetComputeShaderUpdateReflections (env : Env) (s : State) : Option Handle × State :=
  match s.updateCubemapReflectionsCS with
  | some h => (some h, s)
  | none =>
    let s := { s with log := s.log ++ ["Compiling UpdateCubemapCS REFLECTIONS"] }
    let r := compileShader env
      ⟨"Data\\Shaders\\DynamicCubemaps\\UpdateCubemapCS.hlsl", [("REFLECTIONS", "")], "cs_5_0"⟩ s
    (r.1, { r.2 with updateCubemapReflectionsCS := r.1 })

/-- The function `DynamicCubemaps::GetComputeShaderInferrence`. -/
def GetComputeShaderInferrence (env : Env) (s : State) : Option Handle × State :=
  match s.inferCubemapCS with
  | some h => (some h, s)
  | none =>
    let s := { s with log := s.log ++ ["Compiling InferCubemapCS"] }
    let r := compileShader env
      ⟨"Data\\Shaders\\DynamicCubemaps\\InferCubemapCS.hlsl", [], "cs_5_0"⟩ s
    (r.1, { r.2 with inferCubemapCS := r.1 })

/-- The function `DynamicCubemaps::GetComputeShaderInferrenceReflections`. -/
def GetComputeShaderInferrenceReflections (env : Env) (s : State) : Option Handle × State :=
  match s.inferCubemapReflectionsCS with
  | some h => (some h, s)
  | none =>
    let s := { s with log := s.log ++ ["Compiling InferCubemapCS REFLECTIONS"] }
    let r := compileShader env
      ⟨"Data\\Shaders\\DynamicCubemaps\\InferCubemapCS.hlsl", [("REFLECTIONS", "")], "cs_5_0"⟩ s
    (r.1, { r.2 with inferCubemapReflectionsCS := r.1 })

/-- The function `DynamicCubemaps::GetComputeShaderSpecularIrradiance`. -/
def GetComputeShaderSpecularIrradiance (env : Env) (s : State) : Option Handle × State :=
  match s.specularIrradianceCS with
  | some h => (some h, s)
  | none =>
    let s := { s with log := s.log ++ ["Compiling SpecularIrradianceCS"] }
    let r := compileShader env
      ⟨"Data\\Shaders\\DynamicCubemaps\\SpecularIrradianceCS.hlsl", [], "cs_5_0"⟩ s
    (r.1, { r.2 with specularIrradianceCS := r.1 })

/-! ## The three stages -/

/-- The function `DynamicCubemaps::UpdateCubemapCapture`. -/
def UpdateCubemapCapture (env : Env) (a_reflections : Bool) (s : State) : State :=
  let s := { s with calls := s.calls ++ [(Stage.UpdateCubemapCapture, a_reflections)] }
  let s := s.issue (.CSSetShaderResources 0 [some .depthSRV, some .mainSRV])
  let index : Nat := if a_reflections then 1 else 0
  let uavs : UAV × UAV × UAV :=
    if a_reflections then
      (.ofTex .envCaptureReflectionsTexture, .ofTex .envCaptureRawReflectionsTexture,
        .ofTex .envCapturePositionReflectionsTexture)
    else
      (.ofTex .envCaptureTexture, .ofTex .envCaptureRawTexture,
        .ofTex .envCapturePositionTexture)
  let s :=
    if get2 s.resetCapture index then
      let clearColor : List F32 := [F32.zero, F32.zero, F32.zero, F32.zero]
      let s := s.issue (.ClearUnorderedAccessViewFloat uavs.1 clearColor)
      let s := s.issue (.ClearUnorderedAccessViewFloat uavs.2.1 clearColor)
      let s := s.issue (.ClearUnorderedAccessViewFloat uavs.2.2 clearColor)
      { s with resetCapture := set2 s.resetCapture index false }
    else s
  let s := s.issue (.CSSetUnorderedAccessViews 0 [some uavs.1, some uavs.2.1, some uavs.2.2])
  let updateData : float3 := get2 s.cameraPreviousPosAdjust index
  let eyePosition := env.GetEyePosition
  let current : float3 := ⟨eyePosition.x, eyePosition.y, eyePosition.z⟩
  let s := { s with cameraPreviousPosAdjust := set2 s.cameraPreviousPosAdjust index current }
  let s := s.issue (.UpdateCubemapCB updateData)
  let s := s.issue (.CSSetConstantBuffers 0 [some .updateCubemapCB])
  let s := s.issue (.CSSetSamplers 0 [some .computeSampler])
  let r := if a_reflections then GetComputeShaderUpdateReflections env s
    else GetComputeShaderUpdate env s
  let s := r.2.issue (.CSSetShader r.1)
  let s := s.issue (.Dispatch (ceilDiv8f env.envCaptureWidth) (ceilDiv8f env.envCaptureHeight) 6)
  let s := s.issue (.CSSetUnorderedAccessViews 0 [none, none, none])
  let s := s.issue (.CSSetShaderResources 0 [none, none])
  let s := s.issue (.CSSetConstantBuffers 0 [none])
  let s := s.issue (.CSSetShader none)
  s.issue (.CSSetSamplers 0 [none])

/-- The function `DynamicCubemaps::Inferrence`. -/
def Inferrence (env : Env) (a_reflections : Bool) (s : State) : State :=
  let s := { s with calls := s.calls ++ [(Stage.Inferrence, a_reflections)] }
  let s := s.issue (.CSSetUnorderedAccessViews 0 [some (.ofTex .envInferredTexture)])
  let captured : Tex :=
    if a_reflections then .envCaptureReflectionsTexture else .envCaptureTexture
  let s := s.issue (.GenerateMips (.ofTex captured))
  let s := s.issue
    (.CSSetShaderResources 0 [some (.ofTex captured), some .cubemapSRV, some .defaultCubemap])
  let s := s.issue (.CSSetSamplers 0 [some .computeSampler])
  let r := if a_reflections then GetComputeShaderInferrenceReflections env s
    else GetComputeShaderInferrence env s
  let s := r.2.issue (.CSSetShader r.1)
  let s := s.issue (.Dispatch (ceilDiv8f env.envCaptureWidth) (ceilDiv8f env.envCaptureHeight) 6)
  let s := s.issue (.CSSetShaderResources 0 [none, none, none])
  let s := s.issue (.CSSetUnorderedAccessViews 0 [none])
  let s := s.issue (.CSSetShader none)
  s.issue (.CSSetSamplers 0 [none])

/-- The loop `for (uint face = 0; face < 6; face++)` of `Irradiance`, from `face` on. -/
def Irradiance.copyFaces (a_reflections : Bool) (face : Nat) (s : State) : State :=
  if face < 6 then
    let srcSubresourceIndex := D3D11CalcSubresource 0 face MIPLEVELS
    let s := s.issue (.CopySubresourceRegion
      (if a_reflections then .envReflectionsTexture else .envTexture)
      (D3D11CalcSubresource 0 face MIPLEVELS) .envInferredTexture srcSubresourceIndex)
    Irradiance.copyFaces a_reflections (face + 1) s
  else s
termination_by 6 - face

/-- The loop `for (level = 1; level < MIPLEVELS; level++, size /= 2)` of `Irradiance`,
from the given values of `level` and `size` on. -/
def Irradiance.mipLoop (a_reflections : Bool) (delta_roughness : F32) (level size : Nat)
    (s : State) : State :=
  if level < MIPLEVELS then
    let numGroups : Nat := max 1 (size / 8)
    let s := s.issue (.UpdateSpmapCB (F32.mul (F32.ofNat level) delta_roughness))
    let uav : UAV :=
      if a_reflections then .uavReflectionsArray (level - 1) else .uavArray (level - 1)
    let s := s.issue (.CSSetUnorderedAccessViews 0 [some uav])
    let s := s.issue (.Dispatch numGroups numGroups 6)
    Irradiance.mipLoop a_reflections delta_roughness (level + 1) (size / 2) s
  else s
termination_by MIPLEVELS - level

/-- The function `DynamicCubemaps::Irradiance`. -/
def Irradiance (env : Env) (a_reflections : Bool) (s : State) : State :=
  let s := { s with calls := s.calls ++ [(Stage.Irradiance, a_reflections)] }
  let s := Irradiance.copyFaces a_reflections 0 s
  let s := s.issue (.GenerateMips (.ofTex .envInferredTexture))
  let s := s.issue (.CSSetShaderResources 0 [some (.ofTex .envInferredTexture)])
  let s := s.issue (.CSSetSamplers 0 [some .computeSampler])
  let r := GetComputeShaderSpecularIrradiance env s
  let s := r.2.issue (.CSSetShader r.1)
  let s := s.issue (.CSSetConstantBuffers 0 [some .spmapCB])
  let delta_roughness : F32 :=
    F32.div (F32.ofNat 1) (F32.max (F32.ofNat (MIPLEVELS - 1)) (F32.ofNat 1))
  let size : Nat := max env.envWidth env.envHeight / 2
  let s := Irradiance.mipLoop a_reflections delta_roughness 1 size s
  let s := s.issue (.CSSetShaderResources 0 [none])
  let s := s.issue (.CSSetSamplers 0 [none])
  let s := s.issue (.CSSetShader none)
  let s := s.issue (.CSSetConstantBuffers 0 [none])
  s.issue (.CSSetUnorderedAccessViews 0 [none])

/-! ## Frame scheduler -/

/-- The block `if (recompileFlag) { ... }` at the head of `UpdateCubemap`. -/
def UpdateCubemap.recompile (env : Env) (s : State) : State :=
  if s.recompileFlag then
    let s := { s with log := s.log ++ ["Recompiling for Dynamic Cubemaps"] }
    let s := { s with shaderCacheClears := s.shaderCacheClears ++
      [ShaderCacheClear.file "Data//Shaders//ISReflectionsRayTracing.hlsl"] }
    let s :=
      if !env.shaderCacheClearFile then
        { s with shaderCacheClears := s.shaderCacheClears ++ [ShaderCacheClear.imageSpace] }
      else s
    { s with recompileFlag := false }
  else s

/-- The function `DynamicCubemaps::UpdateCubemap`: the recompile block, then the `switch`. -/
def UpdateCubemap (env : Env) (s : State) : State :=
  let s := UpdateCubemap.recompile env s
  match s.nextTask with
  | .kCapture =>
    let s := UpdateCubemapCapture env false s
    { s with nextTask := .kInferrence }
  | .kInferrence =>
    let s := { s with nextTask := .kIrradiance }
    Inferrence env false s
  | .kIrradiance =>
    let s :=
      if s.activeReflections then { s with nextTask := .kCapture2 }
      else { s with nextTask := .kCapture }
    Irradiance env false s
  | .kCapture2 =>
    let s := UpdateCubemapCapture env true s
    { s with nextTask := .kInferrence2 }
  | .kInferrence2 =>
    let s := Inferrence env true s
    { s with nextTask := .kIrradiance2 }
  | .kIrradiance2 =>
    let s := { s with nextTask := .kCapture }
    Irradiance env true s

/-- The function `DynamicCubemaps::Reset`; `skyIsFull` is `none` when `RE::Sky::GetSingleton()`
is null and otherwise tells whether `sky->mode.get() == RE::Sky::Mode::kFull`. -/
def Reset (skyIsFull : Option Bool) (s : State) : State :=
  match skyIsFull with
  | some b => { s with activeReflections := b }
  | none => { s with activeReflections := false }

/-- One frame: the secondary-active flag takes the value `active`, then the tick runs. -/
def frame (s : State) (f : Env × Bool) : State :=
  UpdateCubemap f.1 { s with activeReflections := f.2 }

/-- A sequence of frames, each with its own environment and value of the flag. -/
def runFrames (fs : List (Env × Bool)) (s : State) : State := fs.foldl frame s

/-! ## Definitions used to state the properties -/

/-- The transition table of spec §4.6, as the spec words it. -/
def specTransition : NextTask → Bool → NextTask
  | .kCapture, _ => .kInferrence
  | .kInferrence, _ => .kIrradiance
  | .kIrradiance, true => .kCapture2
  | .kIrradiance, false => .kCapture
  | .kCapture2, _ => .kInferrence2
  | .kInferrence2, _ => .kIrradiance2
  | .kIrradiance2, _ => .kCapture

/-- The stage call a scheduler state names: the stage and its argument `a_reflections`. -/
def specStage : NextTask → Stage × Bool
  | .kCapture => (.UpdateCubemapCapture, false)
  | .kInferrence => (.Inferrence, false)
  | .kIrradiance => (.Irradiance, false)
  | .kCapture2 => (.UpdateCubemapCapture, true)
  | .kInferrence2 => (.Inferrence, true)
  | .kIrradiance2 => (.Irradiance, true)

/-- The commands issued on the device context between state `s` and a later state `s'`. -/
def issued (s s' : State) : List Cmd := s'.ctx.drop s.ctx.length

/-- A state and an environment for concrete instances: nothing compiled, nothing logged,
a 128 x 128 cubemap, and a compiler that hands out the handles 1, 2, 3, ... -/
def initState : State :=
  { recompileFlag := false, activeReflections := false, nextTask := .kCapture,
    resetCapture := (false, false),
    updateCubemapCS := none, updateCubemapReflectionsCS := none, inferCubemapCS := none,
    inferCubemapReflectionsCS := none, specularIrradianceCS := none,
    cameraPreviousPosAdjust := (⟨F32.zero, F32.zero, F32.zero⟩, ⟨F32.zero, F32.zero, F32.zero⟩),
    ctx := [], compiled := [], log := [], released := [], calls := [], shaderCacheClears := [] }

/-- See `initState`. -/
def sampleEnv : Env :=
  { CompileShader := fun n _ => some (n + 1),
    GetEyePosition := ⟨F32.ofNat 1, F32.ofNat 2, F32.ofNat 3⟩,
    envCaptureWidth := 128, envCaptureHeight := 128, envWidth := 128, envHeight := 128,
    shaderCacheClearFile := true }

/-- The scheduler states held before each tick of a run, by the table `specTransition`:
`bs` lists the value of the secondary-active flag at each tick, `t` is the first state. -/
def specStates : List Bool → NextTask → List NextTask
  | [], _ => []
  | b :: bs, t => t :: specStates bs (specTransition t b)

/-- The scheduler state after a run, by the table `specTransition`. -/
def specFinal : List Bool → NextTask → NextTask
  | [], t => t
  | b :: bs, t => specFinal bs (specTransition t b)

/-- One complete Capture-Infer-Irradiance triple of a variant. -/
def triple (v : Bool) : List (Stage × Bool) :=
  [(Stage.UpdateCubemapCapture, v), (Stage.Inferrence, v), (Stage.Irradiance, v)]

/-- The stage calls that complete the triple a state belongs to, the state's own call first. -/
def remaining : NextTask → List (Stage × Bool)
  | .kCapture => triple false
  | .kInferrence => [(Stage.Inferrence, false), (Stage.Irradiance, false)]
  | .kIrradiance => [(Stage.Irradiance, false)]
  | .kCapture2 => triple true
  | .kInferrence2 => [(Stage.Inferrence, true), (Stage.Irradiance, true)]
  | .kIrradiance2 => [(Stage.Irradiance, true)]

/-- The group counts `(x, y, z)` of the dispatches among a list of commands, in order. -/
def dispatches (cs : List Cmd) : List (Nat × Nat × Nat) :=
  cs.filterMap fun c =>
    match c with
    | .Dispatch x y z => some (x, y, z)
    | _ => none

/-- The roughness values written to the filter constant buffer by a list of commands,
in order. -/
def roughnesses (cs : List Cmd) : List F32 :=
  cs.filterMap fun c =>
    match c with
    | .UpdateSpmapCB r => some r
    | _ => none

/-- The roughness the code computes for mip level `L`: the binary32 product of `L` and the
binary32 step `1.0f / 7.0f`. -/
def levelRoughness (L : Nat) : F32 := F32.mul (F32.ofNat L) (F32.div (F32.ofNat 1) (F32.ofNat 7))

/-- The five kinds of compute kernel of the cache. -/
inductive Kernel where
  | update
  | updateReflections
  | infer
  | inferReflections
  | specularIrradiance
deriving DecidableEq, Repr

/-- The getter of a kernel kind. -/
def getter : Kernel → Env → State → Option Handle × State
  | .update => GetComputeShaderUpdate
  | .updateReflections => GetComputeShaderUpdateReflections
  | .infer => GetComputeShaderInferrence
  | .inferReflections => GetComputeShaderInferrenceReflections
  | .specularIrradiance => GetComputeShaderSpecularIrradiance

/-- The member variable that caches the handle of a kernel kind. -/
def slot : Kernel → State → Option Handle
  | .update => State.updateCubemapCS
  | .updateReflections => State.updateCubemapReflectionsCS
  | .infer => State.inferCubemapCS
  | .inferReflections => State.inferCubemapReflectionsCS
  | .specularIrradiance => State.specularIrradianceCS

/-- The first five statements of `DynamicCubemaps::SetupResources`: every getter is
called once, in this order. -/
def SetupResources.kernels (env : Env) (s : State) : State :=
  let s := (GetComputeShaderUpdate env s).2
  let s := (GetComputeShaderUpdateReflections env s).2
  let s := (GetComputeShaderInferrence env s).2
  let s := (GetComputeShaderInferrenceReflections env s).2
  (GetComputeShaderSpecularIrradiance env s).2

/-- An environment whose compiler fails on every request. -/
def failEnv : Env := { sampleEnv with CompileShader := fun _ _ => none }

/-- An environment whose compiler fails on its first call and succeeds afterwards. -/
def flakyEnv : Env :=
  { sampleEnv with CompileShader := fun n _ => if n = 0 then none else some (n + 1) }

/-- The three write targets of a variant, as the spec lists them: color, raw accumulation,
world position (`v = true` is the reflections variant). -/
def specWriteTargets (v : Bool) : List UAV :=
  if v then
    [.ofTex .envCaptureReflectionsTexture, .ofTex .envCaptureRawReflectionsTexture,
      .ofTex .envCapturePositionReflectionsTexture]
  else
    [.ofTex .envCaptureTexture, .ofTex .envCaptureRawTexture, .ofTex .envCapturePositionTexture]

/-- The index of a variant in `resetCapture`: primary 0, reflections 1. -/
def variantIndex (v : Bool) : Nat := if v then 1 else 0

/-- Whether a command clears an unordered access view. -/
def Cmd.isClear : Cmd → Bool
  | .ClearUnorderedAccessViewFloat _ _ => true
  | _ => false

/-- Whether a command is a compute dispatch. -/
def Cmd.isDispatch : Cmd → Bool
  | .Dispatch _ _ _ => true
  | _ => false

/-- The three states of the primary half of the cycle. -/
def isPrimary : NextTask → Bool
  | .kCapture => true
  | .kInferrence => true
  | .kIrradiance => true
  | _ => false

/-- The stage calls made between state `s` and a later state `s'`. -/
def called (s s' : State) : List (Stage × Bool) := s'.calls.drop s.calls.length

/-! ## Definitions used to state what a tick executes -/

/-- The stage function a stage call stands for, applied to its argument `a_reflections`. -/
def runStage (c : Stage × Bool) (env : Env) (s : State) : State :=
  match c.1 with
  | .UpdateCubemapCapture => UpdateCubemapCapture env c.2 s
  | .Inferrence => Inferrence env c.2 s
  | .Irradiance => Irradiance env c.2 s

/-- Everything a stage reads or writes in the program and on the device: the commands
issued on the device context, the reset flags, the saved camera positions, the five
kernel slots, the compiler calls and the released handles. Left out are the scheduler
fields, the debug log, the log of stage calls and the calls of the global shader cache. -/
def State.effects (s : State) :
    List Cmd × (Bool × Bool) × (float3 × float3) × Option Handle × Option Handle ×
      Option Handle × Option Handle × Option Handle × List ShaderRequest × List Handle :=
  (s.ctx, s.resetCapture, s.cameraPreviousPosAdjust, s.updateCubemapCS,
    s.updateCubemapReflectionsCS, s.inferCubemapCS, s.inferCubemapReflectionsCS,
    s.specularIrradianceCS, s.compiled, s.released)

/-- The stage calls the transition table prescribes for a run, each with the environment
of its tick: `fs` gives the environment and the value of the secondary-active flag of each
tick, `t` is the state before the first tick. -/
def schedule : List (Env × Bool) → NextTask → List (Env × (Stage × Bool))
  | [], _ => []
  | f :: fs, t => (f.1, specStage t) :: schedule fs (specTransition t f.2)

/-- The stage functions of a list of stage calls, applied one after the other. -/
def runStages (cs : List (Env × (Stage × Bool))) (s : State) : State :=
  cs.foldl (fun s c => runStage c.2 c.1 s) s

/-- The dispatches of one stage, from the source: the capture and the inference stage
dispatch once over the capture texture in 8 x 8 tiles and six faces, the irradiance stage
once per mip level 1 to 7. -/
def stageDispatches (st : Stage) (env : Env) : List (Nat × Nat × Nat) :=
  match st with
  | .UpdateCubemapCapture =>
    [(ceilDiv8f env.envCaptureWidth, ceilDiv8f env.envCaptureHeight, 6)]
  | .Inferrence =>
    [(ceilDiv8f env.envCaptureWidth, ceilDiv8f env.envCaptureHeight, 6)]
  | .Irradiance =>
    [1, 2, 3, 4, 5, 6, 7].map (fun L =>
      (max 1 ((max env.envWidth env.envHeight >>> L) / 8),
        max 1 ((max env.envWidth env.envHeight >>> L) / 8), 6))

/-! ## Menu events -/

/-- The fields of `RE::MenuOpenCloseEvent` the handler reads. -/
structure MenuOpenCloseEvent where
  menuName : String
  opening : Bool
deriving DecidableEq, Repr

/-- The type `RE::BSEventNotifyControl` of the game library. -/
inductive BSEventNotifyControl where
  | kContinue
  | kStop
deriving DecidableEq, Repr

/-- The function `MenuOpenCloseEventHandler::ProcessEvent`, acting on the singleton of
`DynamicCubemaps`; `isLoadingMenu name` is the result of the library comparison
`name == RE::LoadingMenu::MENU_NAME`. -/
def ProcessEvent (isLoadingMenu : String → Bool) (a_event : MenuOpenCloseEvent) (s : State) :
    BSEventNotifyControl × State :=
  let s :=
    if isLoadingMenu a_event.menuName then
      if !a_event.opening then
        let s := { s with resetCapture := set2 s.resetCapture 0 true }
        { s with resetCapture := set2 s.resetCapture 1 true }
      else s
    else s
  (BSEventNotifyControl.kContinue, s)

/-! ## binary32: checks of the rounding -/

theorem F32_rounding_checks :
    F32.ofNat 16777216 = ⟨false, 8388608, 1⟩
      ∧ F32.ofNat 16777217 = ⟨false, 8388608, 1⟩
      ∧ F32.ofNat 16777219 = ⟨false, 8388610, 1⟩
      ∧ F32.div (F32.ofNat 1) (F32.ofNat 3) = ⟨false, 11184811, -25⟩
      ∧ F32.mul (F32.ofNat 3) (F32.div (F32.ofNat 1) (F32.ofNat 3)) = F32.ofNat 1
      ∧ ceilDiv8f 128 = 16 ∧ ceilDiv8f 129 = 17 := by
  decide

/-! ## Frame lemmas: what each function leaves alone -/

theorem UpdateCubemapCapture_nextTask (env : Env) (r : Bool) (s : State) :
    (UpdateCubemapCapture env r s).nextTask = s.nextTask := by
  cases r <;>
    simp [UpdateCubemapCapture, State.issue, GetComputeShaderUpdate,
      GetComputeShaderUpdateReflections, compileShader] <;>
    (repeat' split) <;> simp

theorem UpdateCubemapCapture_calls (env : Env) (r : Bool) (s : State) :
    (UpdateCubemapCapture env r s).calls = s.calls ++ [(Stage.UpdateCubemapCapture, r)] := by
  cases r <;>
    simp [UpdateCubemapCapture, State.issue, GetComputeShaderUpdate,
      GetComputeShaderUpdateReflections, compileShader] <;>
    (repeat' split) <;> simp

theorem Inferrence_nextTask (env : Env) (r : Bool) (s : State) :
    (Inferrence env r s).nextTask = s.nextTask := by
  cases r <;>
    simp [Inferrence, State.issue, GetComputeShaderInferrence,
      GetComputeShaderInferrenceReflections, compileShader] <;>
    split <;> simp

theorem Inferrence_calls (env : Env) (r : Bool) (s : State) :
    (Inferrence env r s).calls = s.calls ++ [(Stage.Inferrence, r)] := by
  cases r <;>
    simp [Inferrence, State.issue, GetComputeShaderInferrence,
      GetComputeShaderInferrenceReflections, compileShader] <;>
    split <;> simp

theorem Irradiance_nextTask (env : Env) (r : Bool) (s : State) :
    (Irradiance env r s).nextTask = s.nextTask := by
  simp [Irradiance, Irradiance.copyFaces, Irradiance.mipLoop, MIPLEVELS, State.issue,
    GetComputeShaderSpecularIrradiance, compileShader]
  split <;> simp

theorem Irradiance_calls (env : Env) (r : Bool) (s : State) :
    (Irradiance env r s).calls = s.calls ++ [(Stage.Irradiance, r)] := by
  simp [Irradiance, Irradiance.copyFaces, Irradiance.mipLoop, MIPLEVELS, State.issue,
    GetComputeShaderSpecularIrradiance, compileShader]
  split <;> simp

theorem recompile_nextTask (env : Env) (s : State) :
    (UpdateCubemap.recompile env s).nextTask = s.nextTask := by
  unfold UpdateCubemap.recompile
  split
  · simp only []
    split <;> rfl
  · rfl

theorem recompile_calls (env : Env) (s : State) :
    (UpdateCubemap.recompile env s).calls = s.calls := by
  unfold UpdateCubemap.recompile
  split
  · simp only []
    split <;> rfl
  · rfl

theorem recompile_activeReflections (env : Env) (s : State) :
    (UpdateCubemap.recompile env s).activeReflections = s.activeReflections := by
  unfold UpdateCubemap.recompile
  split
  · simp only []
    split <;> rfl
  · rfl

theorem UpdateCubemap_nextTask (env : Env) (s : State) :
    (UpdateCubemap env s).nextTask = specTransition s.nextTask s.activeReflections := by
  have h1 := recompile_nextTask env s
  have h2 := recompile_activeReflections env s
  unfold UpdateCubemap
  generalize UpdateCubemap.recompile env s = s1 at h1 h2
  rw [← h1, ← h2]
  cases ht : s1.nextTask <;> cases ha : s1.activeReflections <;>
    simp [ht, ha, specTransition, UpdateCubemapCapture_nextTask, Inferrence_nextTask,
      Irradiance_nextTask]

theorem UpdateCubemap_calls (env : Env) (s : State) :
    (UpdateCubemap env s).calls = s.calls ++ [specStage s.nextTask] := by
  have h1 := recompile_nextTask env s
  have h2 := recompile_calls env s
  unfold UpdateCubemap
  generalize UpdateCubemap.recompile env s = s1 at h1 h2
  rw [← h1, ← h2]
  cases ht : s1.nextTask <;> cases ha : s1.activeReflections <;>
    simp [ht, ha, specStage, UpdateCubemapCapture_calls, Inferrence_calls, Irradiance_calls]

theorem frame_nextTask (s : State) (f : Env × Bool) :
    (frame s f).nextTask = specTransition s.nextTask f.2 := by
  simp [frame, UpdateCubemap_nextTask]

theorem frame_calls (s : State) (f : Env × Bool) :
    (frame s f).calls = s.calls ++ [specStage s.nextTask] := by
  simp [frame, UpdateCubemap_calls]

theorem runFrames_nextTask (fs : List (Env × Bool)) (s : State) :
    (runFrames fs s).nextTask = specFinal (fs.map Prod.snd) s.nextTask := by
  induction fs generalizing s with
  | nil => rfl
  | cons f fs ih =>
    have h := ih (frame s f)
    rw [frame_nextTask] at h
    simpa [runFrames, specFinal] using h

theorem runFrames_calls (fs : List (Env × Bool)) (s : State) :
    (runFrames fs s).calls =
      s.calls ++ (specStates (fs.map Prod.snd) s.nextTask).map specStage := by
  induction fs generalizing s with
  | nil => simp [runFrames, specStates]
  | cons f fs ih =>
    have h := ih (frame s f)
    rw [frame_nextTask, frame_calls] at h
    simpa [runFrames, specStates] using h

theorem called_runFrames (fs : List (Env × Bool)) (s : State) :
    called s (runFrames fs s) = (specStates (fs.map Prod.snd) s.nextTask).map specStage := by
  simp [called, runFrames_calls]

/-! ## What a stage does depends only on, and a tick changes only, the effects -/

theorem UpdateCubemapCapture_effects_congr (env : Env) (r : Bool) (s1 s2 : State)
    (h : s1.effects = s2.effects) :
    (UpdateCubemapCapture env r s1).effects = (UpdateCubemapCapture env r s2).effects := by
  simp only [State.effects, Prod.mk.injEq] at h
  obtain ⟨h1, h2, h3, h4, h5, h6, h7, h8, h9, h10⟩ := h
  cases r <;> cases k1 : s2.updateCubemapCS <;> cases k2 : s2.updateCubemapReflectionsCS <;>
    cases k3 : get2 s2.resetCapture 0 <;> cases k4 : get2 s2.resetCapture 1 <;>
    simp [State.effects, UpdateCubemapCapture, State.issue, GetComputeShaderUpdate,
      GetComputeShaderUpdateReflections, compileShader, h1, h2, h3, h4, h5, h6, h7, h8, h9,
      h10, k1, k2, k3, k4]

theorem Inferrence_effects_congr (env : Env) (r : Bool) (s1 s2 : State)
    (h : s1.effects = s2.effects) :
    (Inferrence env r s1).effects = (Inferrence env r s2).effects := by
  simp only [State.effects, Prod.mk.injEq] at h
  obtain ⟨h1, h2, h3, h4, h5, h6, h7, h8, h9, h10⟩ := h
  cases r <;> cases k1 : s2.inferCubemapCS <;> cases k2 : s2.inferCubemapReflectionsCS <;>
    simp [State.effects, Inferrence, State.issue, GetComputeShaderInferrence,
      GetComputeShaderInferrenceReflections, compileShader, h1, h2, h3, h4, h5, h6, h7, h8,
      h9, h10, k1, k2]

theorem Irradiance_effects_congr (env : Env) (r : Bool) (s1 s2 : State)
    (h : s1.effects = s2.effects) :
    (Irradiance env r s1).effects = (Irradiance env r s2).effects := by
  simp only [State.effects, Prod.mk.injEq] at h
  obtain ⟨h1, h2, h3, h4, h5, h6, h7, h8, h9, h10⟩ := h
  cases k1 : s2.specularIrradianceCS <;>
    simp [State.effects, Irradiance, Irradiance.copyFaces, Irradiance.mipLoop, MIPLEVELS,
      State.issue, GetComputeShaderSpecularIrradiance, compileShader, h1, h2, h3, h4, h5, h6,
      h7, h8, h9, h10, k1]

theorem runStage_effects_congr (c : Stage × Bool) (env : Env) (s1 s2 : State)
    (h : s1.effects = s2.effects) :
    (runStage c env s1).effects = (runStage c env s2).effects := by
  obtain ⟨st, r⟩ := c
  cases st
  · exact UpdateCubemapCapture_effects_congr env r s1 s2 h
  · exact Inferrence_effects_congr env r s1 s2 h
  · exact Irradiance_effects_congr env r s1 s2 h

theorem UpdateCubemapCapture_nextTask_comm (env : Env) (r : Bool) (s : State) (t : NextTask) :
    UpdateCubemapCapture env r { s with nextTask := t } =
      { UpdateCubemapCapture env r s with nextTask := t } := by
  cases r <;> cases k1 : s.updateCubemapCS <;> cases k2 : s.updateCubemapReflectionsCS <;>
    cases k3 : get2 s.resetCapture 0 <;> cases k4 : get2 s.resetCapture 1 <;>
    simp [UpdateCubemapCapture, State.issue, GetComputeShaderUpdate,
      GetComputeShaderUpdateReflections, compileShader, k1, k2, k3, k4]

theorem Inferrence_nextTask_comm (env : Env) (r : Bool) (s : State) (t : NextTask) :
    Inferrence env r { s with nextTask := t } = { Inferrence env r s with nextTask := t } := by
  cases r <;> cases k1 : s.inferCubemapCS <;> cases k2 : s.inferCubemapReflectionsCS <;>
    simp [Inferrence, State.issue, GetComputeShaderInferrence,
      GetComputeShaderInferrenceReflections, compileShader, k1, k2]

theorem Irradiance_nextTask_comm (env : Env) (r : Bool) (s : State) (t : NextTask) :
    Irradiance env r { s with nextTask := t } = { Irradiance env r s with nextTask := t } := by
  cases k1 : s.specularIrradianceCS <;>
    simp [Irradiance, Irradiance.copyFaces, Irradiance.mipLoop, MIPLEVELS, State.issue,
      GetComputeShaderSpecularIrradiance, compileShader, k1]

theorem UpdateCubemap_eq (env : Env) (s : State) :
    UpdateCubemap env s =
      { runStage (specStage s.nextTask) env (UpdateCubemap.recompile env s) with
        nextTask := specTransition s.nextTask s.activeReflections } := by
  have h1 := recompile_nextTask env s
  have h2 := recompile_activeReflections env s
  unfold UpdateCubemap
  generalize UpdateCubemap.recompile env s = a at h1 h2
  rw [← h1, ← h2]
  dsimp only
  cases ht : a.nextTask
  · rfl
  · exact Inferrence_nextTask_comm env false a _
  · have e : specTransition .kIrradiance a.activeReflections =
        if a.activeReflections = true then NextTask.kCapture2 else NextTask.kCapture := by
      cases a.activeReflections <;> rfl
    rw [e]
    by_cases hc : a.activeReflections = true
    · rw [if_pos hc, if_pos hc]
      exact Irradiance_nextTask_comm env false a _
    · rw [if_neg hc, if_neg hc]
      exact Irradiance_nextTask_comm env false a _
  · rfl
  · rfl
  · exact Irradiance_nextTask_comm env true a _

theorem recompile_effects (env : Env) (s : State) :
    (UpdateCubemap.recompile env s).effects = s.effects := by
  unfold UpdateCubemap.recompile
  split
  · simp only []
    split <;> rfl
  · rfl

theorem UpdateCubemap_effects (env : Env) (s : State) :
    (UpdateCubemap env s).effects = (runStage (specStage s.nextTask) env s).effects := by
  rw [UpdateCubemap_eq]
  exact runStage_effects_congr _ env _ _ (recompile_effects env s)

theorem UpdateCubemap_ctx (env : Env) (s : State) :
    (UpdateCubemap env s).ctx = (runStage (specStage s.nextTask) env s).ctx :=
  congrArg Prod.fst (UpdateCubemap_effects env s)

theorem runStage_ctx (c : Stage × Bool) (env : Env) (s : State) :
    (runStage c env s).ctx = s.ctx ++ issued s (runStage c env s) := by
  obtain ⟨st, r⟩ := c
  cases st <;> cases r
  · cases k1 : s.updateCubemapCS <;> cases k3 : get2 s.resetCapture 0 <;>
      simp [runStage, issued, UpdateCubemapCapture, State.issue, GetComputeShaderUpdate,
        compileShader, k1, k3]
  · cases k1 : s.updateCubemapReflectionsCS <;> cases k3 : get2 s.resetCapture 1 <;>
      simp [runStage, issued, UpdateCubemapCapture, State.issue,
        GetComputeShaderUpdateReflections, compileShader, k1, k3]
  · cases k1 : s.inferCubemapCS <;>
      simp [runStage, issued, Inferrence, State.issue, GetComputeShaderInferrence,
        compileShader, k1]
  · cases k1 : s.inferCubemapReflectionsCS <;>
      simp [runStage, issued, Inferrence, State.issue, GetComputeShaderInferrenceReflections,
        compileShader, k1]
  · cases k1 : s.specularIrradianceCS <;>
      simp [runStage, issued, Irradiance, Irradiance.copyFaces, Irradiance.mipLoop, MIPLEVELS,
        State.issue, GetComputeShaderSpecularIrradiance, compileShader, k1]
  · cases k1 : s.specularIrradianceCS <;>
      simp [runStage, issued, Irradiance, Irradiance.copyFaces, Irradiance.mipLoop, MIPLEVELS,
        State.issue, GetComputeShaderSpecularIrradiance, compileShader, k1]

theorem Irradiance_dispatches (env : Env) (r : Bool) (s : State) :
    dispatches (issued s (Irradiance env r s)) =
      [1, 2, 3, 4, 5, 6, 7].map (fun L =>
        (max 1 (max env.envWidth env.envHeight / 2 ^ L / 8),
          max 1 (max env.envWidth env.envHeight / 2 ^ L / 8), 6)) := by
  simp [issued, dispatches, Irradiance, Irradiance.copyFaces, Irradiance.mipLoop, MIPLEVELS,
    State.issue, GetComputeShaderSpecularIrradiance, compileShader]
  split <;> simp [List.filterMap_cons, Nat.div_div_eq_div_mul]

theorem runStage_dispatches (c : Stage × Bool) (env : Env) (s : State) :
    dispatches (issued s (runStage c env s)) = stageDispatches c.1 env := by
  obtain ⟨st, r⟩ := c
  cases st
  · cases r
    · cases k1 : s.updateCubemapCS <;> cases k3 : get2 s.resetCapture 0 <;>
        simp [runStage, issued, dispatches, stageDispatches, UpdateCubemapCapture,
          State.issue, GetComputeShaderUpdate, compileShader, k1, k3]
    · cases k1 : s.updateCubemapReflectionsCS <;> cases k3 : get2 s.resetCapture 1 <;>
        simp [runStage, issued, dispatches, stageDispatches, UpdateCubemapCapture,
          State.issue, GetComputeShaderUpdateReflections, compileShader, k1, k3]
  · cases r
    · cases k1 : s.inferCubemapCS <;>
        simp [runStage, issued, dispatches, stageDispatches, Inferrence, State.issue,
          GetComputeShaderInferrence, compileShader, k1]
    · cases k1 : s.inferCubemapReflectionsCS <;>
        simp [runStage, issued, dispatches, stageDispatches, Inferrence, State.issue,
          GetComputeShaderInferrenceReflections, compileShader, k1]
  · show dispatches (issued s (Irradiance env r s)) = _
    rw [Irradiance_dispatches]
    simp only [stageDispatches, Nat.shiftRight_eq_div_pow]

theorem issued_UpdateCubemap (env : Env) (s : State) :
    issued s (UpdateCubemap env s) = issued s (runStage (specStage s.nextTask) env s) := by
  simp only [issued, UpdateCubemap_ctx]

theorem UpdateCubemap_ctx_append (env : Env) (s : State) :
    (UpdateCubemap env s).ctx = s.ctx ++ issued s (UpdateCubemap env s) := by
  rw [issued_UpdateCubemap, UpdateCubemap_ctx]
  exact runStage_ctx _ env s

theorem UpdateCubemap_dispatches (env : Env) (s : State) :
    dispatches (issued s (UpdateCubemap env s)) = stageDispatches (specStage s.nextTask).1 env := by
  rw [issued_UpdateCubemap]
  exact runStage_dispatches _ env s

theorem frame_effects (s : State) (f : Env × Bool) :
    (frame s f).effects = (runStage (specStage s.nextTask) f.1 s).effects := by
  unfold frame
  rw [UpdateCubemap_effects]
  exact runStage_effects_congr _ f.1 _ _ rfl

theorem frame_dispatches (s : State) (f : Env × Bool) :
    dispatches (frame s f).ctx =
      dispatches s.ctx ++ stageDispatches (specStage s.nextTask).1 f.1 := by
  unfold frame
  rw [UpdateCubemap_ctx_append, dispatches, List.filterMap_append]
  exact congrArg _ (UpdateCubemap_dispatches f.1 { s with activeReflections := f.2 })

theorem schedule_calls (fs : List (Env × Bool)) (t : NextTask) :
    (schedule fs t).map Prod.snd = (specStates (fs.map Prod.snd) t).map specStage := by
  induction fs generalizing t with
  | nil => rfl
  | cons f fs ih => simp [schedule, specStates, ih]

theorem runFrames_effects (fs : List (Env × Bool)) (s s2 : State)
    (h : s.effects = s2.effects) :
    (runFrames fs s).effects = (runStages (schedule fs s.nextTask) s2).effects := by
  induction fs generalizing s s2 with
  | nil => simpa [runFrames, runStages, schedule] using h
  | cons f fs ih =>
    have h1 : (frame s f).effects = (runStage (specStage s.nextTask) f.1 s2).effects := by
      rw [frame_effects]
      exact runStage_effects_congr _ f.1 s s2 h
    have h2 := ih (frame s f) _ h1
    rw [frame_nextTask] at h2
    simpa [runFrames, runStages, schedule] using h2

theorem runFrames_dispatches (fs : List (Env × Bool)) (s : State) :
    dispatches (runFrames fs s).ctx =
      dispatches s.ctx ++
        ((schedule fs s.nextTask).map (fun c => stageDispatches c.2.1 c.1)).flatten := by
  induction fs generalizing s with
  | nil => simp [runFrames, schedule]
  | cons f fs ih =>
    have h2 := ih (frame s f)
    rw [frame_nextTask, frame_dispatches] at h2
    simpa [runFrames, schedule] using h2

/-! ## C1 to C5: the frame scheduler -/

/-- C1: one call of `UpdateCubemap` leaves `nextTask` equal to the entry of the fixed
transition table for the state held before the call, whatever the state and the flags;
the flag `activeReflections` changes the next state only when the state is `kIrradiance`. -/
theorem UpdateCubemap_transition_table (env : Env) (s : State) :
    (UpdateCubemap env s).nextTask =
        (match s.nextTask with
          | .kCapture => .kInferrence
          | .kInferrence => .kIrradiance
          | .kIrradiance => if s.activeReflections then .kCapture2 else .kCapture
          | .kCapture2 => .kInferrence2
          | .kInferrence2 => .kIrradiance2
          | .kIrradiance2 => .kCapture)
      ∧ ∀ b : Bool, s.nextTask ≠ .kIrradiance →
          (UpdateCubemap env { s with activeReflections := b }).nextTask =
            (UpdateCubemap env s).nextTask := by
  refine ⟨?_, ?_⟩
  · rw [UpdateCubemap_nextTask]
    cases s.nextTask <;> cases s.activeReflections <;> rfl
  · intro b hb
    rw [UpdateCubemap_nextTask, UpdateCubemap_nextTask]
    revert hb
    cases s.nextTask <;> cases s.activeReflections <;> cases b <;> simp [specTransition]

/-- C1, instance: from `kCapture` the next state is `kInferrence` with the flag clear and
with the flag set. -/
theorem UpdateCubemap_transition_table_witness :
    initState.nextTask ≠ .kIrradiance ∧
      (UpdateCubemap sampleEnv { initState with activeReflections := true }).nextTask =
        (UpdateCubemap sampleEnv initState).nextTask :=
  ⟨by decide, (UpdateCubemap_transition_table sampleEnv initState).2 true (by decide)⟩

/-- C2: one call of `UpdateCubemap` executes exactly one stage, the one named by the state
held before the call: `UpdateCubemapCapture`, `Inferrence` or `Irradiance`, with
`a_reflections = false` for the three primary states and `true` for the three secondary.
The log of stage calls grows by that one call; everything the tick does to the program and
the device (commands issued, reset flags, camera positions, kernel slots, compiler calls)
is what that one stage function does from the state before the tick; the commands it
issues are those of that stage function, with the dispatches of that stage; and with
`recompileFlag` clear the state after the tick is the state after that stage function
with `nextTask` set to the next state. -/
theorem UpdateCubemap_one_stage (env : Env) (s : State) :
    called s (UpdateCubemap env s) =
      [match s.nextTask with
        | .kCapture => (Stage.UpdateCubemapCapture, false)
        | .kInferrence => (Stage.Inferrence, false)
        | .kIrradiance => (Stage.Irradiance, false)
        | .kCapture2 => (Stage.UpdateCubemapCapture, true)
        | .kInferrence2 => (Stage.Inferrence, true)
        | .kIrradiance2 => (Stage.Irradiance, true)]
      ∧ (UpdateCubemap env s).effects =
          (match s.nextTask with
            | .kCapture => UpdateCubemapCapture env false s
            | .kInferrence => Inferrence env false s
            | .kIrradiance => Irradiance env false s
            | .kCapture2 => UpdateCubemapCapture env true s
            | .kInferrence2 => Inferrence env true s
            | .kIrradiance2 => Irradiance env true s).effects
      ∧ issued s (UpdateCubemap env s) =
          issued s (match s.nextTask with
            | .kCapture => UpdateCubemapCapture env false s
            | .kInferrence => Inferrence env false s
            | .kIrradiance => Irradiance env false s
            | .kCapture2 => UpdateCubemapCapture env true s
            | .kInferrence2 => Inferrence env true s
            | .kIrradiance2 => Irradiance env true s)
      ∧ dispatches (issued s (UpdateCubemap env s)) =
          (match s.nextTask with
            | .kCapture => stageDispatches .UpdateCubemapCapture env
            | .kInferrence => stageDispatches .Inferrence env
            | .kIrradiance => stageDispatches .Irradiance env
            | .kCapture2 => stageDispatches .UpdateCubemapCapture env
            | .kInferrence2 => stageDispatches .Inferrence env
            | .kIrradiance2 => stageDispatches .Irradiance env)
      ∧ UpdateCubemap env { s with recompileFlag := false } =
          { (match s.nextTask with
              | .kCapture => UpdateCubemapCapture env false { s with recompileFlag := false }
              | .kInferrence => Inferrence env false { s with recompileFlag := false }
              | .kIrradiance => Irradiance env false { s with recompileFlag := false }
              | .kCapture2 => UpdateCubemapCapture env true { s with recompileFlag := false }
              | .kInferrence2 => Inferrence env true { s with recompileFlag := false }
              | .kIrradiance2 => Irradiance env true { s with recompileFlag := false }) with
            nextTask :=
              (match s.nextTask with
                | .kCapture => .kInferrence
                | .kInferrence => .kIrradiance
                | .kIrradiance => if s.activeReflections then .kCapture2 else .kCapture
                | .kCapture2 => .kInferrence2
                | .kInferrence2 => .kIrradiance2
                | .kIrradiance2 => .kCapture) } := by
  refine ⟨?_, ?_, ?_, ?_, ?_⟩
  · simp only [called, UpdateCubemap_calls, List.drop_left]
    cases s.nextTask <;> rfl
  · rw [UpdateCubemap_effects]
    cases s.nextTask <;> rfl
  · rw [issued_UpdateCubemap]
    cases s.nextTask <;> rfl
  · rw [UpdateCubemap_dispatches]
    cases s.nextTask <;> rfl
  · rw [UpdateCubemap_eq]
    have hr : UpdateCubemap.recompile env { s with recompileFlag := false } =
        { s with recompileFlag := false } := by
      simp [UpdateCubemap.recompile]
    rw [hr]
    show { runStage (specStage s.nextTask) env { s with recompileFlag := false } with
      nextTask := specTransition s.nextTask s.activeReflections } = _
    cases s.nextTask <;> cases s.activeReflections <;> rfl

/-- C2, instance: the tick from the initial state dispatches the capture pass once, in
16 x 16 x 6 groups for the 128 x 128 capture texture. -/
theorem UpdateCubemap_one_stage_witness :
    dispatches (issued initState (UpdateCubemap sampleEnv initState)) = [(16, 16, 6)] :=
  (UpdateCubemap_one_stage sampleEnv initState).2.2.2.1.trans (by decide)

/-- C3: from `kCapture`, six ticks with the secondary variant active at each of them run
Capture, Inferrence, Irradiance on the primary variant and then on the secondary one,
each once and in this order, and end in `kCapture`: the log of stage calls grows by these
six calls; what the six ticks do to the program and the device is what the six stage
functions do when applied in this order, each with the environment of its tick; and the
dispatches issued are those of the six stages in this order. -/
theorem six_ticks_full_cycle (e1 e2 e3 e4 e5 e6 : Env) (s : State)
    (h : s.nextTask = .kCapture) :
    called s (runFrames [(e1, true), (e2, true), (e3, true), (e4, true), (e5, true),
        (e6, true)] s) =
        [(Stage.UpdateCubemapCapture, false), (Stage.Inferrence, false),
          (Stage.Irradiance, false), (Stage.UpdateCubemapCapture, true),
          (Stage.Inferrence, true), (Stage.Irradiance, true)]
      ∧ (runFrames [(e1, true), (e2, true), (e3, true), (e4, true), (e5, true),
          (e6, true)] s).nextTask = .kCapture
      ∧ (runFrames [(e1, true), (e2, true), (e3, true), (e4, true), (e5, true),
          (e6, true)] s).effects =
        (Irradiance e6 true (Inferrence e5 true (UpdateCubemapCapture e4 true
          (Irradiance e3 false (Inferrence e2 false
            (UpdateCubemapCapture e1 false s)))))).effects
      ∧ dispatches (runFrames [(e1, true), (e2, true), (e3, true), (e4, true), (e5, true),
          (e6, true)] s).ctx =
        dispatches s.ctx ++ (stageDispatches .UpdateCubemapCapture e1 ++
          stageDispatches .Inferrence e2 ++ stageDispatches .Irradiance e3 ++
          stageDispatches .UpdateCubemapCapture e4 ++ stageDispatches .Inferrence e5 ++
          stageDispatches .Irradiance e6) := by
  refine ⟨?_, ?_, ?_, ?_⟩
  · rw [called_runFrames, h]
    rfl
  · rw [runFrames_nextTask, h]
    rfl
  · rw [runFrames_effects _ s s rfl, h]
    rfl
  · rw [runFrames_dispatches, h]
    simp [schedule, specStage, specTransition]

/-- C3, instance: the six ticks from the initial state end in `kCapture` and issue
eighteen dispatches: one for each capture and inference stage, seven for each irradiance
stage. -/
theorem six_ticks_full_cycle_witness :
    initState.nextTask = .kCapture ∧
      (runFrames [(sampleEnv, true), (sampleEnv, true), (sampleEnv, true), (sampleEnv, true),
        (sampleEnv, true), (sampleEnv, true)] initState).nextTask = .kCapture ∧
      dispatches (runFrames [(sampleEnv, true), (sampleEnv, true), (sampleEnv, true),
        (sampleEnv, true), (sampleEnv, true), (sampleEnv, true)] initState).ctx =
        [(16, 16, 6), (16, 16, 6), (8, 8, 6), (4, 4, 6), (2, 2, 6), (1, 1, 6), (1, 1, 6),
          (1, 1, 6), (1, 1, 6), (16, 16, 6), (16, 16, 6), (8, 8, 6), (4, 4, 6), (2, 2, 6),
          (1, 1, 6), (1, 1, 6), (1, 1, 6), (1, 1, 6)] :=
  ⟨rfl, (six_ticks_full_cycle sampleEnv sampleEnv sampleEnv sampleEnv sampleEnv sampleEnv
    initState rfl).2.1,
    (six_ticks_full_cycle sampleEnv sampleEnv sampleEnv sampleEnv sampleEnv sampleEnv
      initState rfl).2.2.2.trans (by decide)⟩

theorem specFinal_append (as bs : List Bool) (t : NextTask) :
    specFinal (as ++ bs) t = specFinal bs (specFinal as t) := by
  induction as generalizing t with
  | nil => rfl
  | cons a as ih => simp [specFinal, ih]

theorem specFinal_primary (bs : List Bool) (t : NextTask) (hb : ∀ b ∈ bs, b = false)
    (ht : isPrimary t = true) : isPrimary (specFinal bs t) = true := by
  induction bs generalizing t with
  | nil => simpa [specFinal] using ht
  | cons b bs ih =>
    have hb0 : b = false := hb b (List.mem_cons_self _ _)
    subst hb0
    apply ih _ (fun c hc => hb c (List.mem_cons_of_mem _ hc))
    revert ht
    cases t <;> simp [specTransition, isPrimary]

theorem specStates_primary (bs : List Bool) (t : NextTask) (hb : ∀ b ∈ bs, b = false)
    (ht : isPrimary t = true) : ∀ u ∈ specStates bs t, isPrimary u = true := by
  induction bs generalizing t with
  | nil => simp [specStates]
  | cons b bs ih =>
    have hb0 : b = false := hb b (List.mem_cons_self _ _)
    subst hb0
    intro u hu
    simp only [specStates, List.mem_cons] at hu
    rcases hu with rfl | hu
    · exact ht
    · refine ih _ (fun c hc => hb c (List.mem_cons_of_mem _ hc)) ?_ u hu
      revert ht
      cases t <;> simp [specTransition, isPrimary]

/-- C4: with the secondary variant inactive, a tick from `kIrradiance` goes to `kCapture`
and not to `kCapture2`; and a run of any length from a primary state with the flag clear
at every tick never reaches a secondary state, makes no stage call with
`a_reflections = true`, and is back in the same state after any three further ticks. -/
theorem inactive_skips_secondary (env : Env) (t : State) (ht : t.nextTask = .kIrradiance)
    (ha : t.activeReflections = false) (fs gs : List (Env × Bool)) (s : State)
    (hf : ∀ f ∈ fs, f.2 = false) (hg : ∀ g ∈ gs, g.2 = false) (hl : gs.length = 3)
    (hp : s.nextTask = .kCapture ∨ s.nextTask = .kInferrence ∨ s.nextTask = .kIrradiance) :
    (UpdateCubemap env t).nextTask = .kCapture
      ∧ (UpdateCubemap env t).nextTask ≠ .kCapture2
      ∧ ((runFrames fs s).nextTask ≠ .kCapture2 ∧ (runFrames fs s).nextTask ≠ .kInferrence2
          ∧ (runFrames fs s).nextTask ≠ .kIrradiance2)
      ∧ (∀ c ∈ called s (runFrames fs s), c.2 = false)
      ∧ (runFrames (fs ++ gs) s).nextTask = (runFrames fs s).nextTask := by
  have hp1 : isPrimary s.nextTask = true := by
    rcases hp with h | h | h <;> simp [h, isPrimary]
  have hfb : ∀ b ∈ fs.map Prod.snd, b = false := by
    intro b hb
    obtain ⟨f, hf1, rfl⟩ := List.mem_map.1 hb
    exact hf f hf1
  have hgb : ∀ b ∈ gs.map Prod.snd, b = false := by
    intro b hb
    obtain ⟨g, hg1, rfl⟩ := List.mem_map.1 hb
    exact hg g hg1
  have hfin := specFinal_primary _ _ hfb hp1
  have h1 : (UpdateCubemap env t).nextTask = .kCapture := by
    rw [UpdateCubemap_nextTask, ht, ha]; rfl
  refine ⟨h1, by rw [h1]; decide, ?_, ?_, ?_⟩
  · rw [runFrames_nextTask]
    revert hfin
    cases specFinal (fs.map Prod.snd) s.nextTask <;> simp [isPrimary]
  · intro c hc
    rw [called_runFrames] at hc
    obtain ⟨u, hu, rfl⟩ := List.mem_map.1 hc
    have := specStates_primary _ _ hfb hp1 u hu
    revert this
    cases u <;> simp [isPrimary, specStage]
  · rw [runFrames_nextTask, runFrames_nextTask, List.map_append, specFinal_append]
    have hl3 : (gs.map Prod.snd).length = 3 := by simpa using hl
    generalize gs.map Prod.snd = bs at hgb hl3
    match bs, hl3 with
    | [b1, b2, b3], _ =>
      have e1 : b1 = false := hgb b1 (by simp)
      have e2 : b2 = false := hgb b2 (by simp)
      have e3 : b3 = false := hgb b3 (by simp)
      subst e1 e2 e3
      revert hfin
      cases specFinal (fs.map Prod.snd) s.nextTask <;> simp [isPrimary, specFinal, specTransition]

/-- C4, instance: two inactive ticks from the initial state, then three more. -/
theorem inactive_skips_secondary_witness :
    (runFrames ([(sampleEnv, false), (sampleEnv, false)] ++
        [(sampleEnv, false), (sampleEnv, false), (sampleEnv, false)]) initState).nextTask =
      (runFrames [(sampleEnv, false), (sampleEnv, false)] initState).nextTask :=
  (inactive_skips_secondary sampleEnv { initState with nextTask := .kIrradiance } rfl rfl
    [(sampleEnv, false), (sampleEnv, false)]
    [(sampleEnv, false), (sampleEnv, false), (sampleEnv, false)] initState
    (by decide) (by decide) rfl (Or.inl rfl)).2.2.2.2

theorem specStates_length (bs : List Bool) (t : NextTask) :
    (specStates bs t).length = bs.length := by
  induction bs generalizing t with
  | nil => rfl
  | cons b bs ih => simp [specStates, ih]

theorem specStates_step (bs : List Bool) (t : NextTask) (i : Nat) (u : NextTask)
    (h : (specStates bs t)[i]? = some u) :
    ∃ b, bs[i]? = some b ∧
      (i + 1 < bs.length → (specStates bs t)[i + 1]? = some (specTransition u b)) := by
  induction bs generalizing t i with
  | nil => simp [specStates] at h
  | cons b bs ih =>
    cases i with
    | zero =>
      simp only [specStates, List.getElem?_cons_zero, Option.some.injEq] at h
      subst h
      refine ⟨b, by simp, ?_⟩
      intro hlen
      cases bs with
      | nil => simp at hlen
      | cons c cs => simp [specStates]
    | succ j =>
      simp only [specStates, List.getElem?_cons_succ] at h
      obtain ⟨c, hc, hnext⟩ := ih _ _ h
      refine ⟨c, by simpa using hc, ?_⟩
      intro hlen
      simp only [specStates, List.getElem?_cons_succ]
      exact hnext (by simpa using hlen)

theorem specStates_triples (bs : List Bool) (t : NextTask) :
    ∃ vs : List Bool, (specStates bs t).map specStage =
      (remaining t ++ (vs.map triple).flatten).take bs.length := by
  induction bs generalizing t with
  | nil => exact ⟨[], by simp [specStates]⟩
  | cons b bs ih =>
    obtain ⟨vs, hvs⟩ := ih (specTransition t b)
    cases t <;> cases b <;>
      first
        | exact ⟨vs, by
            simpa [specStates, specTransition, specStage, remaining, triple] using hvs⟩
        | exact ⟨false :: vs, by
            simpa [specStates, specTransition, specStage, remaining, triple] using hvs⟩
        | exact ⟨true :: vs, by
            simpa [specStates, specTransition, specStage, remaining, triple] using hvs⟩

theorem specStage_capture (u : NextTask) (v : Bool)
    (h : specStage u = (Stage.UpdateCubemapCapture, v)) :
    u = (if v then NextTask.kCapture2 else NextTask.kCapture) := by
  revert h
  cases u <;> cases v <;> simp [specStage]

theorem run_calls_in_order (fs : List (Env × Bool)) (s : State) (h : s.nextTask = .kCapture) :
    (called s (runFrames fs s)).length = fs.length
      ∧ (∃ vs : List Bool,
          called s (runFrames fs s) = ((vs.map triple).flatten).take fs.length)
      ∧ (∀ i v, (called s (runFrames fs s))[i]? = some (Stage.UpdateCubemapCapture, v) →
          (i + 1 < fs.length →
            (called s (runFrames fs s))[i + 1]? = some (Stage.Inferrence, v))
          ∧ (i + 2 < fs.length →
            (called s (runFrames fs s))[i + 2]? = some (Stage.Irradiance, v)))
      ∧ (∀ i, (called s (runFrames fs s))[i]? = some (Stage.UpdateCubemapCapture, true) →
          ∃ j, i = j + 1 ∧ (called s (runFrames fs s))[j]? = some (Stage.Irradiance, false)
            ∧ (fs[j]?).map Prod.snd = some true) := by
  rw [called_runFrames, h]
  have hlen : (fs.map Prod.snd).length = fs.length := by simp
  have hget : ∀ j : Nat, (fs[j]?).map Prod.snd = (fs.map Prod.snd)[j]? := by
    intro j; simp
  simp only [hget]
  rw [← hlen]
  generalize fs.map Prod.snd = bs
  refine ⟨by simp [specStates_length], ?_, ?_, ?_⟩
  · obtain ⟨vs, hvs⟩ := specStates_triples bs .kCapture
    exact ⟨false :: vs, by simpa [remaining] using hvs⟩
  · intro i v hi
    rw [List.getElem?_map] at hi
    obtain ⟨u, hu, hsu⟩ := Option.map_eq_some'.1 hi
    have hu' := specStage_capture u v hsu
    obtain ⟨b, _, hb1⟩ := specStates_step bs _ i u hu
    refine ⟨?_, ?_⟩
    · intro h1
      rw [List.getElem?_map, hb1 h1, hu']
      cases v <;> cases b <;> rfl
    · intro h2
      have h1 : i + 1 < bs.length := by omega
      obtain ⟨b', _, hb2⟩ := specStates_step bs _ (i + 1) _ (hb1 h1)
      rw [List.getElem?_map, hb2 h2, hu']
      cases v <;> cases b <;> cases b' <;> rfl
  · intro i hi
    rw [List.getElem?_map] at hi
    obtain ⟨u, hu, hsu⟩ := Option.map_eq_some'.1 hi
    have hu' := specStage_capture u true hsu
    simp only [if_true] at hu'
    subst hu'
    cases i with
    | zero =>
      cases bs with
      | nil => simp [specStates] at hu
      | cons b bs => simp [specStates] at hu
    | succ j =>
      refine ⟨j, rfl, ?_⟩
      have hj1 : j + 1 < (specStates bs .kCapture).length := by
        by_contra hcon
        rw [List.getElem?_eq_none (by omega)] at hu
        exact absurd hu (by simp)
      have hj : j < (specStates bs .kCapture).length := by omega
      have hu0 : (specStates bs .kCapture)[j]? = some ((specStates bs .kCapture)[j]) :=
        List.getElem?_eq_getElem hj
      obtain ⟨b, hb, hb1⟩ := specStates_step bs _ j _ hu0
      rw [specStates_length] at hj1
      have hnext := hb1 hj1
      rw [hu] at hnext
      rw [List.getElem?_map, hu0, hb]
      generalize (specStates bs .kCapture)[j] = w at hnext
      revert hnext
      cases w <;> cases b <;> simp [specTransition, specStage]

/-- C5: for every sequence of values of the secondary-active flag, the stage calls of a run
from `kCapture` are one per tick and form a sequence of complete Capture-Infer-Irradiance
triples (cut where the run ends); after the capture stage of a variant the next two ticks
run the inference and then the irradiance stage of the same variant; and a secondary
capture is run only by the tick right after one that ran the primary irradiance stage with
the flag set. These stage calls are the ones the run executes: they are the calls the
transition table prescribes, what the run does to the program and the device is what the
stage functions of exactly these calls do when applied in this order, each with the
environment of its tick, and the dispatches issued are those of these stages in order. -/
theorem stages_in_order (fs : List (Env × Bool)) (s : State) (h : s.nextTask = .kCapture) :
    (called s (runFrames fs s)).length = fs.length
      ∧ (∃ vs : List Bool,
          called s (runFrames fs s) = ((vs.map triple).flatten).take fs.length)
      ∧ (∀ i v, (called s (runFrames fs s))[i]? = some (Stage.UpdateCubemapCapture, v) →
          (i + 1 < fs.length →
            (called s (runFrames fs s))[i + 1]? = some (Stage.Inferrence, v))
          ∧ (i + 2 < fs.length →
            (called s (runFrames fs s))[i + 2]? = some (Stage.Irradiance, v)))
      ∧ (∀ i, (called s (runFrames fs s))[i]? = some (Stage.UpdateCubemapCapture, true) →
          ∃ j, i = j + 1 ∧ (called s (runFrames fs s))[j]? = some (Stage.Irradiance, false)
            ∧ (fs[j]?).map Prod.snd = some true)
      ∧ called s (runFrames fs s) = (schedule fs .kCapture).map Prod.snd
      ∧ (runFrames fs s).effects = (runStages (schedule fs .kCapture) s).effects
      ∧ dispatches (runFrames fs s).ctx =
          dispatches s.ctx ++
            ((schedule fs .kCapture).map (fun c => stageDispatches c.2.1 c.1)).flatten := by
  obtain ⟨h1, h2, h3, h4⟩ := run_calls_in_order fs s h
  refine ⟨h1, h2, h3, h4, ?_, ?_, ?_⟩
  · rw [called_runFrames, schedule_calls, h]
  · rw [runFrames_effects fs s s rfl, h]
  · rw [runFrames_dispatches, h]

/-- C5, instance: the flag is set only at the third tick of seven; the run makes seven
stage calls and issues nineteen dispatches (a primary triple, a secondary triple and the
capture of the next primary one). -/
theorem stages_in_order_witness :
    initState.nextTask = .kCapture ∧
      (called initState (runFrames [(sampleEnv, false), (sampleEnv, false), (sampleEnv, true),
        (sampleEnv, false), (sampleEnv, false), (sampleEnv, false), (sampleEnv, false)]
        initState)).length = 7 ∧
      (dispatches (runFrames [(sampleEnv, false), (sampleEnv, false), (sampleEnv, true),
        (sampleEnv, false), (sampleEnv, false), (sampleEnv, false), (sampleEnv, false)]
        initState).ctx).length = 19 :=
  ⟨rfl, (stages_in_order [(sampleEnv, false), (sampleEnv, false), (sampleEnv, true),
    (sampleEnv, false), (sampleEnv, false), (sampleEnv, false), (sampleEnv, false)]
    initState rfl).1,
    (congrArg List.length (stages_in_order [(sampleEnv, false), (sampleEnv, false),
      (sampleEnv, true), (sampleEnv, false), (sampleEnv, false), (sampleEnv, false),
      (sampleEnv, false)] initState rfl).2.2.2.2.2.2).trans (by decide)⟩

theorem capture_issued (env : Env) (v : Bool) (s : State) :
    ∃ h : Option Handle, issued s (UpdateCubemapCapture env v s) =
      [Cmd.CSSetShaderResources 0 [some .depthSRV, some .mainSRV]] ++
      (if get2 s.resetCapture (variantIndex v) then
        (specWriteTargets v).map (fun u =>
          Cmd.ClearUnorderedAccessViewFloat u [F32.zero, F32.zero, F32.zero, F32.zero])
        else []) ++
      [Cmd.CSSetUnorderedAccessViews 0 ((specWriteTargets v).map some),
        Cmd.UpdateCubemapCB (get2 s.cameraPreviousPosAdjust (variantIndex v)),
        Cmd.CSSetConstantBuffers 0 [some .updateCubemapCB],
        Cmd.CSSetSamplers 0 [some .computeSampler],
        Cmd.CSSetShader h,
        Cmd.Dispatch (ceilDiv8f env.envCaptureWidth) (ceilDiv8f env.envCaptureHeight) 6,
        Cmd.CSSetUnorderedAccessViews 0 [none, none, none],
        Cmd.CSSetShaderResources 0 [none, none],
        Cmd.CSSetConstantBuffers 0 [none],
        Cmd.CSSetShader none,
        Cmd.CSSetSamplers 0 [none]] := by
  rcases hs : s.resetCapture with ⟨a, b⟩
  cases v <;> cases a <;> cases b <;>
    simp [issued, UpdateCubemapCapture, State.issue, GetComputeShaderUpdate,
      GetComputeShaderUpdateReflections, compileShader, hs, get2, set2, variantIndex,
      specWriteTargets] <;>
    split <;> simp

theorem capture_resetCapture (env : Env) (v : Bool) (s : State) :
    (UpdateCubemapCapture env v s).resetCapture =
      set2 s.resetCapture (variantIndex v) false := by
  rcases hs : s.resetCapture with ⟨a, b⟩
  cases v <;> cases a <;> cases b <;>
    simp [UpdateCubemapCapture, State.issue, GetComputeShaderUpdate,
      GetComputeShaderUpdateReflections, compileShader, hs, get2, set2, variantIndex] <;>
    split <;> simp [hs]

/-! ## C6: the reset flag of the capture stage -/

/-- C6: when `resetCapture[v]` is set as `UpdateCubemapCapture(v)` runs, the three write
targets of that variant (color, raw accumulation, world position) are each cleared to
zero before the one compute dispatch, and nothing else is cleared; when the flag is not
set no clear is issued; in both cases `resetCapture[v]` is false afterwards and the flag
of the other variant is unchanged. -/
theorem capture_clears_on_reset (env : Env) (v : Bool) (s : State) :
    (get2 s.resetCapture (variantIndex v) = true →
        ∃ pre post, issued s (UpdateCubemapCapture env v s) =
            pre ++ (specWriteTargets v).map (fun u =>
              Cmd.ClearUnorderedAccessViewFloat u [F32.zero, F32.zero, F32.zero, F32.zero])
              ++ post
          ∧ (∀ c ∈ pre, c.isDispatch = false ∧ c.isClear = false)
          ∧ (∀ c ∈ post, c.isClear = false)
          ∧ (post.filter Cmd.isDispatch).length = 1)
      ∧ (get2 s.resetCapture (variantIndex v) = false →
          ∀ c ∈ issued s (UpdateCubemapCapture env v s), c.isClear = false)
      ∧ get2 (UpdateCubemapCapture env v s).resetCapture (variantIndex v) = false
      ∧ get2 (UpdateCubemapCapture env v s).resetCapture (variantIndex (!v)) =
          get2 s.resetCapture (variantIndex (!v))
      ∧ F32.toRat F32.zero = 0 := by
  obtain ⟨h, hi⟩ := capture_issued env v s
  have hr := capture_resetCapture env v s
  refine ⟨?_, ?_, ?_, ?_, ?_⟩
  · intro hset
    rw [hi, hset]
    refine ⟨_, _, rfl, ?_, ?_, ?_⟩
    · simp [Cmd.isDispatch, Cmd.isClear]
    · simp [Cmd.isClear]
    · simp [Cmd.isDispatch]
  · intro hclear c hc
    rw [hi, hclear] at hc
    simp at hc
    rcases hc with rfl | rfl | rfl | rfl | rfl | rfl | rfl | rfl | rfl | rfl | rfl | rfl <;> rfl
  · rw [hr]
    cases v <;> simp [get2, set2, variantIndex]
  · rw [hr]
    cases v <;> simp [get2, set2, variantIndex]
  · simp [F32.toRat, F32.zero]

/-- C6, instance: with both flags set the primary capture clears its three targets before
the dispatch; from the initial state, where no flag is set, it clears nothing. -/
theorem capture_clears_on_reset_witness :
    (get2 (true, true) (variantIndex false) = true ∧
      ∃ pre post, issued { initState with resetCapture := (true, true) }
          (UpdateCubemapCapture sampleEnv false { initState with resetCapture := (true, true) }) =
            pre ++ (specWriteTargets false).map (fun u =>
              Cmd.ClearUnorderedAccessViewFloat u [F32.zero, F32.zero, F32.zero, F32.zero])
              ++ post
          ∧ (∀ c ∈ pre, c.isDispatch = false ∧ c.isClear = false)
          ∧ (∀ c ∈ post, c.isClear = false)
          ∧ (post.filter Cmd.isDispatch).length = 1)
      ∧ (get2 initState.resetCapture (variantIndex false) = false ∧
        ∀ c ∈ issued initState (UpdateCubemapCapture sampleEnv false initState),
          c.isClear = false) :=
  ⟨⟨by decide, (capture_clears_on_reset sampleEnv false
      { initState with resetCapture := (true, true) }).1 (by decide)⟩,
    ⟨by decide, (capture_clears_on_reset sampleEnv false initState).2.1 (by decide)⟩⟩

/-! ## C7 and C8: the compute program cache -/

theorem ClearShaderCache_slots (s : State) :
    (ClearShaderCache s).updateCubemapCS = none
      ∧ (ClearShaderCache s).inferCubemapCS = none
      ∧ (ClearShaderCache s).inferCubemapReflectionsCS = none
      ∧ (ClearShaderCache s).specularIrradianceCS = none
      ∧ (ClearShaderCache s).updateCubemapReflectionsCS = s.updateCubemapReflectionsCS := by
  unfold ClearShaderCache
  cases h1 : s.updateCubemapCS <;> cases h2 : s.inferCubemapCS <;>
    cases h3 : s.inferCubemapReflectionsCS <;> cases h4 : s.specularIrradianceCS <;>
    simp [h1, h2, h3, h4]

/-- C7, at the failing input: after the five getters of `SetupResources` have filled the
cache (the reflections update kernel has handle 2), `ClearShaderCache` empties and releases
the other four slots but leaves `updateCubemapReflectionsCS` holding handle 2, unreleased,
and the next `GetComputeShaderUpdateReflections` returns that handle and compiles nothing. -/
theorem ClearShaderCache_keeps_updateReflections :
    (SetupResources.kernels sampleEnv initState).updateCubemapReflectionsCS = some 2
      ∧ (ClearShaderCache (SetupResources.kernels sampleEnv initState)).updateCubemapCS = none
      ∧ (ClearShaderCache (SetupResources.kernels sampleEnv initState)).inferCubemapCS = none
      ∧ (ClearShaderCache (SetupResources.kernels sampleEnv initState)).inferCubemapReflectionsCS
          = none
      ∧ (ClearShaderCache (SetupResources.kernels sampleEnv initState)).specularIrradianceCS
          = none
      ∧ (ClearShaderCache (SetupResources.kernels sampleEnv initState)).released = [1, 3, 4, 5]
      ∧ (ClearShaderCache (SetupResources.kernels sampleEnv initState)).updateCubemapReflectionsCS
          = some 2
      ∧ GetComputeShaderUpdateReflections sampleEnv
            (ClearShaderCache (SetupResources.kernels sampleEnv initState)) =
          (some 2, ClearShaderCache (SetupResources.kernels sampleEnv initState)) := by
  decide

/-- C8, refuted as stated: when the compiler fails, the slot stays empty, so the second
call of `GetComputeShaderUpdate` compiles again (two compiler calls, and the second call
changes the state); and with a compiler that fails once and then succeeds the two calls
return different results. -/
theorem getter_recompiles_after_failure :
    (GetComputeShaderUpdate failEnv (GetComputeShaderUpdate failEnv initState).2).2.compiled.length
        = initState.compiled.length + 2
      ∧ (GetComputeShaderUpdate failEnv (GetComputeShaderUpdate failEnv initState).2).2
          ≠ (GetComputeShaderUpdate failEnv initState).2
      ∧ (GetComputeShaderUpdate flakyEnv initState).1 = none
      ∧ (GetComputeShaderUpdate flakyEnv (GetComputeShaderUpdate flakyEnv initState).2).1
          = some 2 := by
  decide

/-- C8, amended: for every kernel kind, when the first call of its getter returns a handle
(not null), a second call with no invalidation in between returns the same handle and
leaves the whole state unchanged, so it compiles nothing and the two calls invoke the
compiler at most once; the handle returned is the one cached in the slot of that kind; and
a getter call never changes the slot of another kind. -/
theorem getter_cached (env1 env2 : Env) (k : Kernel) (s : State) :
    ((getter k env1 s).1 ≠ none →
        getter k env2 (getter k env1 s).2 = ((getter k env1 s).1, (getter k env1 s).2)
          ∧ (getter k env2 (getter k env1 s).2).2.compiled.length ≤ s.compiled.length + 1)
      ∧ slot k (getter k env1 s).2 = (getter k env1 s).1
      ∧ ∀ k2, k2 ≠ k → slot k2 (getter k env1 s).2 = slot k2 s := by
  refine ⟨?_, ?_, ?_⟩
  · intro h
    cases k <;>
      simp only [getter, GetComputeShaderUpdate, GetComputeShaderUpdateReflections,
        GetComputeShaderInferrence, GetComputeShaderInferrenceReflections,
        GetComputeShaderSpecularIrradiance, compileShader] at h ⊢ <;>
      split at h <;> rename_i hs <;> simp [hs] at h ⊢ <;>
      (obtain ⟨x, hx⟩ := Option.ne_none_iff_exists'.1 h; simp [hx])
  · cases k <;>
      simp only [getter, slot, GetComputeShaderUpdate, GetComputeShaderUpdateReflections,
        GetComputeShaderInferrence, GetComputeShaderInferrenceReflections,
        GetComputeShaderSpecularIrradiance, compileShader] <;>
      split <;> simp [*]
  · intro k2 hk
    cases k <;> cases k2 <;>
      first
        | exact absurd rfl hk
        | (simp only [getter, slot, GetComputeShaderUpdate, GetComputeShaderUpdateReflections,
            GetComputeShaderInferrence, GetComputeShaderInferrenceReflections,
            GetComputeShaderSpecularIrradiance, compileShader]
           split <;> rfl)

/-- C8, instance: the update kernel compiled from the initial state is returned again by
the second call. -/
theorem getter_cached_witness :
    (getter .update sampleEnv initState).1 ≠ none ∧
      getter .update sampleEnv (getter .update sampleEnv initState).2 =
        ((getter .update sampleEnv initState).1, (getter .update sampleEnv initState).2) :=
  ⟨by decide, ((getter_cached sampleEnv sampleEnv .update initState).1 (by decide)).1⟩

/-! ## C9 and C10: the prefilter loop -/

theorem Irradiance_roughnesses (env : Env) (r : Bool) (s : State) :
    roughnesses (issued s (Irradiance env r s)) = [1, 2, 3, 4, 5, 6, 7].map levelRoughness := by
  have hmax : F32.max (F32.ofNat 7) (F32.ofNat 1) = F32.ofNat 7 := by decide
  simp [issued, roughnesses, Irradiance, Irradiance.copyFaces, Irradiance.mipLoop, MIPLEVELS,
    State.issue, GetComputeShaderSpecularIrradiance, compileShader, hmax, levelRoughness]
  split <;> simp [List.filterMap_cons]

theorem levelRoughness_values :
    [1, 2, 3, 4, 5, 6, 7].map levelRoughness =
      [⟨false, 9586981, -26⟩, ⟨false, 9586981, -25⟩, ⟨false, 14380472, -25⟩,
        ⟨false, 9586981, -24⟩, ⟨false, 11983726, -24⟩, ⟨false, 14380472, -24⟩,
        ⟨false, 8388608, -23⟩] := by
  decide

/-- C9: in the irradiance stage the dispatches are exactly those of the mip levels 1 to 7,
in this order, and at level `L` the group count on both axes is
`max(1, (max(Width, Height) >> L) / 8)` and the third dimension is 6, for all values of
`Width` and `Height` (in particular all 32-bit ones; no operation of the loop can wrap). -/
theorem Irradiance_group_counts (env : Env) (r : Bool) (s : State) :
    dispatches (issued s (Irradiance env r s)) =
      [1, 2, 3, 4, 5, 6, 7].map (fun L =>
        (max 1 ((max env.envWidth env.envHeight >>> L) / 8),
          max 1 ((max env.envWidth env.envHeight >>> L) / 8), 6)) := by
  rw [Irradiance_dispatches]
  simp only [Nat.shiftRight_eq_div_pow]

/-- C10, refuted as stated: at level 3 the roughness written is `14380472 / 2^25`, which is
neither the number `3 / 7` nor the binary32 quotient of 3 by 7 (it is one unit in the last
place above it); at level 1 it is `9586981 / 2^26`, not `1 / 7`. -/
theorem roughness_level3_not_exact :
    (roughnesses (issued initState (Irradiance sampleEnv false initState)))[2]? =
        some ⟨false, 14380472, -25⟩
      ∧ F32.toRat ⟨false, 14380472, -25⟩ = 14380472 / 2 ^ 25
      ∧ F32.toRat ⟨false, 14380472, -25⟩ ≠ 3 / 7
      ∧ F32.div (F32.ofNat 3) (F32.ofNat 7) = ⟨false, 14380471, -25⟩
      ∧ (roughnesses (issued initState (Irradiance sampleEnv false initState)))[0]? =
        some ⟨false, 9586981, -26⟩
      ∧ F32.toRat ⟨false, 9586981, -26⟩ ≠ 1 / 7 := by
  rw [Irradiance_roughnesses, levelRoughness_values]
  refine ⟨rfl, ?_, ?_, by decide, rfl, ?_⟩ <;> norm_num [F32.toRat]

/-- C10, amended: the roughness written for mip level `L` is the binary32 product of `L`
and the binary32 step `1.0f / max(float(MIPLEVELS - 1), 1.0f)`, the binary32 nearest to
`1 / 7`; the loop writes it for exactly the levels 1, 2, ..., 7 in increasing order; each
value lies in `[L / 7, L / 7 + 2^-23)`; the values are strictly increasing and the last
one is exactly 1. -/
theorem Irradiance_roughness_values (env : Env) (r : Bool) (s : State) :
    roughnesses (issued s (Irradiance env r s)) =
        [1, 2, 3, 4, 5, 6, 7].map (fun L =>
          F32.mul (F32.ofNat L)
            (F32.div (F32.ofNat 1) (F32.max (F32.ofNat (MIPLEVELS - 1)) (F32.ofNat 1))))
      ∧ F32.toRat (F32.div (F32.ofNat 1) (F32.max (F32.ofNat (MIPLEVELS - 1)) (F32.ofNat 1)))
          = 9586981 / 2 ^ 26
      ∧ (roughnesses (issued s (Irradiance env r s))).map F32.toRat =
          [9586981 / 2 ^ 26, 9586981 / 2 ^ 25, 14380472 / 2 ^ 25, 9586981 / 2 ^ 24,
            11983726 / 2 ^ 24, 14380472 / 2 ^ 24, 1]
      ∧ List.Forall₂ (fun (L : ℚ) (v : ℚ) => L / 7 ≤ v ∧ v < L / 7 + 1 / 2 ^ 23)
          [1, 2, 3, 4, 5, 6, 7] ((roughnesses (issued s (Irradiance env r s))).map F32.toRat)
      ∧ List.Pairwise (fun a b => a < b)
          ((roughnesses (issued s (Irradiance env r s))).map F32.toRat)
      ∧ (roughnesses (issued s (Irradiance env r s))).getLast? = some (F32.ofNat 1) := by
  have hstep : F32.div (F32.ofNat 1) (F32.max (F32.ofNat (MIPLEVELS - 1)) (F32.ofNat 1)) =
      ⟨false, 9586981, -26⟩ := by decide
  have hvals : (roughnesses (issued s (Irradiance env r s))).map F32.toRat =
      [9586981 / 2 ^ 26, 9586981 / 2 ^ 25, 14380472 / 2 ^ 25, 9586981 / 2 ^ 24,
        11983726 / 2 ^ 24, 14380472 / 2 ^ 24, 1] := by
    rw [Irradiance_roughnesses, levelRoughness_values]
    norm_num [F32.toRat]
  refine ⟨?_, ?_, hvals, ?_, ?_, ?_⟩
  · rw [Irradiance_roughnesses]
    have : F32.max (F32.ofNat (MIPLEVELS - 1)) (F32.ofNat 1) = F32.ofNat 7 := by decide
    rw [this]
    rfl
  · rw [hstep]; norm_num [F32.toRat]
  · rw [hvals]
    norm_num
  · rw [hvals]
    norm_num
  · rw [Irradiance_roughnesses, levelRoughness_values]
    decide

/-! ## C11: the menu event handler -/

/-- C11: when `ProcessEvent` receives the event of the loading menu closing, `resetCapture[0]`
and `resetCapture[1]` are both true afterwards, whatever they were; for every other event
(another menu, or the loading menu opening) the state, and so both flags, is unchanged;
the handler returns `kContinue` in every case and never changes `nextTask`. -/
theorem ProcessEvent_resets_on_loading_close (isLoadingMenu : String → Bool)
    (ev : MenuOpenCloseEvent) (s : State) :
    (isLoadingMenu ev.menuName = true → ev.opening = false →
        get2 (ProcessEvent isLoadingMenu ev s).2.resetCapture 0 = true
          ∧ get2 (ProcessEvent isLoadingMenu ev s).2.resetCapture 1 = true)
      ∧ ((isLoadingMenu ev.menuName = false ∨ ev.opening = true) →
          (ProcessEvent isLoadingMenu ev s).2 = s)
      ∧ (ProcessEvent isLoadingMenu ev s).1 = BSEventNotifyControl.kContinue
      ∧ (ProcessEvent isLoadingMenu ev s).2.nextTask = s.nextTask := by
  refine ⟨?_, ?_, rfl, ?_⟩
  · intro h1 h2
    simp [ProcessEvent, h1, h2, get2, set2]
  · intro h
    rcases h with h | h <;> simp [ProcessEvent, h]
  · cases h1 : isLoadingMenu ev.menuName <;> cases h2 : ev.opening <;>
      simp [ProcessEvent, h1, h2]

/-- C11, instance: the loading menu closing sets both flags of the initial state, and the
loading menu opening leaves the state as it is. -/
theorem ProcessEvent_resets_on_loading_close_witness :
    (get2 (ProcessEvent (fun n => n == "Loading Menu") ⟨"Loading Menu", false⟩
          initState).2.resetCapture 0 = true
        ∧ get2 (ProcessEvent (fun n => n == "Loading Menu") ⟨"Loading Menu", false⟩
          initState).2.resetCapture 1 = true)
      ∧ (ProcessEvent (fun n => n == "Loading Menu") ⟨"Loading Menu", true⟩ initState).2
          = initState :=
  ⟨(ProcessEvent_resets_on_loading_close (fun n => n == "Loading Menu")
      ⟨"Loading Menu", false⟩ initState).1 (by decide) rfl,
    (ProcessEvent_resets_on_loading_close (fun n => n == "Loading Menu")
      ⟨"Loading Menu", true⟩ initState).2.1 (Or.inr rfl)⟩

/-! ## C12: the recompile flag -/

theorem UpdateCubemapCapture_recompileFlag (env : Env) (r : Bool) (s : State) :
    (UpdateCubemapCapture env r s).recompileFlag = s.recompileFlag := by
  cases r <;>
    simp [UpdateCubemapCapture, State.issue, GetComputeShaderUpdate,
      GetComputeShaderUpdateReflections, compileShader] <;>
    (repeat' split) <;> simp

theorem Inferrence_recompileFlag (env : Env) (r : Bool) (s : State) :
    (Inferrence env r s).recompileFlag = s.recompileFlag := by
  cases r <;>
    simp [Inferrence, State.issue, GetComputeShaderInferrence,
      GetComputeShaderInferrenceReflections, compileShader] <;>
    split <;> simp

theorem Irradiance_recompileFlag (env : Env) (r : Bool) (s : State) :
    (Irradiance env r s).recompileFlag = s.recompileFlag := by
  simp [Irradiance, Irradiance.copyFaces, Irradiance.mipLoop, MIPLEVELS, State.issue,
    GetComputeShaderSpecularIrradiance, compileShader]
  split <;> simp

theorem recompile_recompileFlag (env : Env) (s : State) :
    (UpdateCubemap.recompile env s).recompileFlag = false := by
  unfold UpdateCubemap.recompile
  split
  · simp only []
  · simpa using ‹¬s.recompileFlag = true›

theorem UpdateCubemap_recompileFlag (env : Env) (s : State) :
    (UpdateCubemap env s).recompileFlag = false := by
  have h1 := recompile_recompileFlag env s
  unfold UpdateCubemap
  generalize UpdateCubemap.recompile env s = s1 at h1
  cases ht : s1.nextTask <;> cases ha : s1.activeReflections <;>
    simp [ht, ha, h1, UpdateCubemapCapture_recompileFlag, Inferrence_recompileFlag,
      Irradiance_recompileFlag]

theorem UpdateCubemapCapture_ctx_congr (env : Env) (r : Bool) (s1 s2 : State)
    (h1 : s1.ctx = s2.ctx) (h2 : s1.resetCapture = s2.resetCapture)
    (h3 : s1.cameraPreviousPosAdjust = s2.cameraPreviousPosAdjust)
    (h4 : s1.updateCubemapCS = s2.updateCubemapCS)
    (h5 : s1.updateCubemapReflectionsCS = s2.updateCubemapReflectionsCS)
    (h6 : s1.compiled = s2.compiled) :
    (UpdateCubemapCapture env r s1).ctx = (UpdateCubemapCapture env r s2).ctx := by
  cases r <;> cases h7 : s2.updateCubemapCS <;> cases h8 : s2.updateCubemapReflectionsCS <;>
    cases h9 : get2 s2.resetCapture 0 <;> cases h10 : get2 s2.resetCapture 1 <;>
    simp [UpdateCubemapCapture, State.issue, GetComputeShaderUpdate,
      GetComputeShaderUpdateReflections, compileShader, h1, h2, h3, h4, h5, h6, h7, h8, h9, h10]

theorem Inferrence_ctx_congr (env : Env) (r : Bool) (s1 s2 : State)
    (h1 : s1.ctx = s2.ctx) (h4 : s1.inferCubemapCS = s2.inferCubemapCS)
    (h5 : s1.inferCubemapReflectionsCS = s2.inferCubemapReflectionsCS)
    (h6 : s1.compiled = s2.compiled) :
    (Inferrence env r s1).ctx = (Inferrence env r s2).ctx := by
  cases r <;> cases h7 : s2.inferCubemapCS <;> cases h8 : s2.inferCubemapReflectionsCS <;>
    simp [Inferrence, State.issue, GetComputeShaderInferrence,
      GetComputeShaderInferrenceReflections, compileShader, h1, h4, h5, h6, h7, h8]

theorem Irradiance_ctx_congr (env : Env) (r : Bool) (s1 s2 : State)
    (h1 : s1.ctx = s2.ctx) (h4 : s1.specularIrradianceCS = s2.specularIrradianceCS)
    (h6 : s1.compiled = s2.compiled) :
    (Irradiance env r s1).ctx = (Irradiance env r s2).ctx := by
  cases h7 : s2.specularIrradianceCS <;>
    simp [Irradiance, Irradiance.copyFaces, Irradiance.mipLoop, MIPLEVELS, State.issue,
      GetComputeShaderSpecularIrradiance, compileShader, h1, h4, h6, h7]

theorem recompile_frame (env : Env) (s : State) :
    (UpdateCubemap.recompile env s).ctx = s.ctx
      ∧ (UpdateCubemap.recompile env s).resetCapture = s.resetCapture
      ∧ (UpdateCubemap.recompile env s).cameraPreviousPosAdjust = s.cameraPreviousPosAdjust
      ∧ (UpdateCubemap.recompile env s).updateCubemapCS = s.updateCubemapCS
      ∧ (UpdateCubemap.recompile env s).updateCubemapReflectionsCS
          = s.updateCubemapReflectionsCS
      ∧ (UpdateCubemap.recompile env s).inferCubemapCS = s.inferCubemapCS
      ∧ (UpdateCubemap.recompile env s).inferCubemapReflectionsCS
          = s.inferCubemapReflectionsCS
      ∧ (UpdateCubemap.recompile env s).specularIrradianceCS = s.specularIrradianceCS
      ∧ (UpdateCubemap.recompile env s).compiled = s.compiled := by
  unfold UpdateCubemap.recompile
  split
  · simp only []
    split <;> simp
  · simp

theorem UpdateCubemap_ctx_flag (env : Env) (s : State) :
    (UpdateCubemap env s).ctx = (UpdateCubemap env { s with recompileFlag := false }).ctx := by
  obtain ⟨a1, a2, a3, a4, a5, a6, a7, a8, a9⟩ := recompile_frame env s
  obtain ⟨b1, b2, b3, b4, b5, b6, b7, b8, b9⟩ :=
    recompile_frame env { s with recompileFlag := false }
  have an := recompile_nextTask env s
  have bn := recompile_nextTask env { s with recompileFlag := false }
  have aa := recompile_activeReflections env s
  have ba := recompile_activeReflections env { s with recompileFlag := false }
  unfold UpdateCubemap
  generalize UpdateCubemap.recompile env s = a at *
  generalize UpdateCubemap.recompile env { s with recompileFlag := false } = b at *
  simp only [] at b1 b2 b3 b4 b5 b6 b7 b8 b9 bn ba
  simp only [an, bn, aa, ba]
  cases s.nextTask <;> simp only []
  · exact UpdateCubemapCapture_ctx_congr env false a b (by rw [a1, b1]) (by rw [a2, b2])
      (by rw [a3, b3]) (by rw [a4, b4]) (by rw [a5, b5]) (by rw [a9, b9])
  · exact Inferrence_ctx_congr env false _ _ (by simp [a1, b1]) (by simp [a6, b6])
      (by simp [a7, b7]) (by simp [a9, b9])
  · cases s.activeReflections <;>
      exact Irradiance_ctx_congr env false _ _ (by simp [a1, b1]) (by simp [a8, b8])
        (by simp [a9, b9])
  · exact UpdateCubemapCapture_ctx_congr env true a b (by rw [a1, b1]) (by rw [a2, b2])
      (by rw [a3, b3]) (by rw [a4, b4]) (by rw [a5, b5]) (by rw [a9, b9])
  · exact Inferrence_ctx_congr env true a b (by rw [a1, b1]) (by rw [a6, b6])
      (by rw [a7, b7]) (by rw [a9, b9])
  · exact Irradiance_ctx_congr env true _ _ (by simp [a1, b1]) (by simp [a8, b8])
      (by simp [a9, b9])

/-- C12, refuted as stated: with `recompileFlag` set in the initial state (`nextTask` is
`kCapture`), the tick still makes the stage call `UpdateCubemapCapture(false)` with its
dispatch and moves `nextTask` to `kInferrence`. -/
theorem recompile_tick_not_skipped :
    ({ initState with recompileFlag := true } : State).recompileFlag = true
      ∧ ({ initState with recompileFlag := true } : State).nextTask = .kCapture
      ∧ called { initState with recompileFlag := true }
          (UpdateCubemap sampleEnv { initState with recompileFlag := true }) =
        [(Stage.UpdateCubemapCapture, false)]
      ∧ dispatches (issued { initState with recompileFlag := true }
          (UpdateCubemap sampleEnv { initState with recompileFlag := true })) = [(16, 16, 6)]
      ∧ (UpdateCubemap sampleEnv { initState with recompileFlag := true }).nextTask
          = .kInferrence := by
  decide

theorem runStage_shaderCacheClears (c : Stage × Bool) (env : Env) (s : State) :
    (runStage c env s).shaderCacheClears = s.shaderCacheClears := by
  obtain ⟨st, r⟩ := c
  cases st
  · cases r
    · cases k1 : s.updateCubemapCS <;> cases k3 : get2 s.resetCapture 0 <;>
        simp [runStage, UpdateCubemapCapture, State.issue, GetComputeShaderUpdate,
          compileShader, k1, k3]
    · cases k1 : s.updateCubemapReflectionsCS <;> cases k3 : get2 s.resetCapture 1 <;>
        simp [runStage, UpdateCubemapCapture, State.issue, GetComputeShaderUpdateReflections,
          compileShader, k1, k3]
  · cases r
    · cases k1 : s.inferCubemapCS <;>
        simp [runStage, Inferrence, State.issue, GetComputeShaderInferrence, compileShader, k1]
    · cases k1 : s.inferCubemapReflectionsCS <;>
        simp [runStage, Inferrence, State.issue, GetComputeShaderInferrenceReflections,
          compileShader, k1]
  · cases k1 : s.specularIrradianceCS <;>
      simp [runStage, Irradiance, Irradiance.copyFaces, Irradiance.mipLoop, MIPLEVELS,
        State.issue, GetComputeShaderSpecularIrradiance, compileShader, k1]

theorem recompile_of_set (env : Env) (s : State) (h : s.recompileFlag = true) :
    UpdateCubemap.recompile env s =
      { s with
        recompileFlag := false
        log := s.log ++ ["Recompiling for Dynamic Cubemaps"]
        shaderCacheClears := s.shaderCacheClears ++
          (if env.shaderCacheClearFile then
            [ShaderCacheClear.file "Data//Shaders//ISReflectionsRayTracing.hlsl"]
          else
            [ShaderCacheClear.file "Data//Shaders//ISReflectionsRayTracing.hlsl",
              ShaderCacheClear.imageSpace]) } := by
  cases hc : env.shaderCacheClearFile <;> simp [UpdateCubemap.recompile, h, hc]

theorem recompile_of_clear (env : Env) (s : State) (h : s.recompileFlag = false) :
    UpdateCubemap.recompile env s = s := by
  simp [UpdateCubemap.recompile, h]

/-- C12, amended: when `recompileFlag` is set as `UpdateCubemap` is called, the tick does
not skip its work. The state after the tick is the state after the stage function named
by `nextTask`, run from the state in which the recompile message is logged, the global
shader cache has been asked to clear the reflections ray-tracing shader (and all
image-space shaders when that one is not found) and `recompileFlag` is false, with
`nextTask` set by the transition table. So the tick makes exactly that stage call, does to
the program and the device what that stage function does from the state before the tick,
issues its commands and dispatches (the same as with the flag clear), asks the shader
cache exactly once, and leaves `recompileFlag` false; the following tick does not enter
the recompile block, does not ask the shader cache again, and executes the stage named by
the new state. -/
theorem recompile_tick_runs_stage (env env2 : Env) (s : State) (h : s.recompileFlag = true) :
    UpdateCubemap env s =
        { runStage (specStage s.nextTask) env
            { s with
              recompileFlag := false
              log := s.log ++ ["Recompiling for Dynamic Cubemaps"]
              shaderCacheClears := s.shaderCacheClears ++
                (if env.shaderCacheClearFile then
                  [ShaderCacheClear.file "Data//Shaders//ISReflectionsRayTracing.hlsl"]
                else
                  [ShaderCacheClear.file "Data//Shaders//ISReflectionsRayTracing.hlsl",
                    ShaderCacheClear.imageSpace]) } with
          nextTask := specTransition s.nextTask s.activeReflections }
      ∧ called s (UpdateCubemap env s) = [specStage s.nextTask]
      ∧ (UpdateCubemap env s).effects = (runStage (specStage s.nextTask) env s).effects
      ∧ issued s (UpdateCubemap env s) = issued s (runStage (specStage s.nextTask) env s)
      ∧ dispatches (issued s (UpdateCubemap env s)) =
          stageDispatches (specStage s.nextTask).1 env
      ∧ issued s (UpdateCubemap env s) =
          issued { s with recompileFlag := false }
            (UpdateCubemap env { s with recompileFlag := false })
      ∧ (UpdateCubemap env s).nextTask = specTransition s.nextTask s.activeReflections
      ∧ (UpdateCubemap env s).shaderCacheClears =
          s.shaderCacheClears ++
            (if env.shaderCacheClearFile then
              [ShaderCacheClear.file "Data//Shaders//ISReflectionsRayTracing.hlsl"]
            else
              [ShaderCacheClear.file "Data//Shaders//ISReflectionsRayTracing.hlsl",
                ShaderCacheClear.imageSpace])
      ∧ (UpdateCubemap env s).recompileFlag = false
      ∧ UpdateCubemap.recompile env2 (UpdateCubemap env s) = UpdateCubemap env s
      ∧ (UpdateCubemap env2 (UpdateCubemap env s)).shaderCacheClears =
          (UpdateCubemap env s).shaderCacheClears
      ∧ called (UpdateCubemap env s) (UpdateCubemap env2 (UpdateCubemap env s)) =
          [specStage (specTransition s.nextTask s.activeReflections)]
      ∧ (UpdateCubemap env2 (UpdateCubemap env s)).effects =
          (runStage (specStage (specTransition s.nextTask s.activeReflections)) env2
            (UpdateCubemap env s)).effects := by
  have hflag := UpdateCubemap_recompileFlag env s
  have hnext := UpdateCubemap_nextTask env s
  have heq : UpdateCubemap env s = _ := (UpdateCubemap_eq env s).trans
    (by rw [recompile_of_set env s h])
  refine ⟨heq, ?_, UpdateCubemap_effects env s, issued_UpdateCubemap env s,
    UpdateCubemap_dispatches env s, ?_, hnext, ?_, hflag, recompile_of_clear env2 _ hflag,
    ?_, ?_, ?_⟩
  · simp [called, UpdateCubemap_calls]
  · simp only [issued]
    rw [UpdateCubemap_ctx_flag env s]
  · rw [heq]
    exact runStage_shaderCacheClears _ env _
  · rw [UpdateCubemap_eq env2 (UpdateCubemap env s), recompile_of_clear env2 _ hflag]
    exact runStage_shaderCacheClears _ env2 _
  · simp [called, UpdateCubemap_calls, UpdateCubemap_nextTask]
  · rw [UpdateCubemap_effects, hnext]

/-- C12, instance: the tick from the initial state with `recompileFlag` set makes the
capture call, dispatches the capture pass and asks the shader cache once. -/
theorem recompile_tick_runs_stage_witness :
    ({ initState with recompileFlag := true } : State).recompileFlag = true
      ∧ called { initState with recompileFlag := true }
          (UpdateCubemap sampleEnv { initState with recompileFlag := true }) =
        [specStage ({ initState with recompileFlag := true } : State).nextTask]
      ∧ dispatches (issued { initState with recompileFlag := true }
          (UpdateCubemap sampleEnv { initState with recompileFlag := true })) = [(16, 16, 6)]
      ∧ (UpdateCubemap sampleEnv { initState with recompileFlag := true }).shaderCacheClears =
        [ShaderCacheClear.file "Data//Shaders//ISReflectionsRayTracing.hlsl"] :=
  ⟨rfl, (recompile_tick_runs_stage sampleEnv sampleEnv
      { initState with recompileFlag := true } rfl).2.1,
    (recompile_tick_runs_stage sampleEnv sampleEnv
      { initState with recompileFlag := true } rfl).2.2.2.2.1.trans (by decide),
    (recompile_tick_runs_stage sampleEnv sampleEnv
      { initState with recompileFlag := true } rfl).2.2.2.2.2.2.2.1.trans (by decide)⟩

end DynamicCubemaps
